import Mathlib

set_option autoImplicit false

/-!
Verification development for the mol* draw pass and renderer
(src/mol-canvas3d/passes/draw.ts, which also carries the renderer source).

The embedding is shallow: JS numbers are modelled as rationals, ValueCell
holders as plain fields (with an explicit version counter where cell-update
tracking matters), and the ambient WebGL state as an explicit record threaded
through the per-object dispatch.  Draw submissions are recorded as an event
trace so that ordering and classification claims can be stated.
-/

namespace MolstarDraw

/-- JS clamp from mol-math interpolate: Math.max(lo, Math.min(hi, v)). -/
def clampQ (v lo hi : ℚ) : ℚ := max lo (min hi v)

/-- Render variants of the renderer (string tags in the source:
pickObject, pickInstance, pickGroup, depth, colorBlended, colorWboit). -/
inductive Variant where
  | pickObject
  | pickInstance
  | pickGroup
  | depthVariant
  | colorBlended
  | colorWboit
deriving DecidableEq, Repr

/-- The source tests the tag string with variant[0] === the letter p;
only the three pick variants start with that letter. -/
def isPickVariant : Variant → Bool
  | Variant.pickObject => true
  | Variant.pickInstance => true
  | Variant.pickGroup => true
  | _ => false

/-- Values of the dRenderMode define (volume or isosurface). -/
inductive RenderMode where
  | volume
  | isosurface
deriving DecidableEq, Repr

/-- Clip variant define values (strings instance and pixel in the source). -/
inductive ClipVariantT where
  | perInstance
  | perPixel
deriving DecidableEq, Repr

/-- Program handles per variant; the source obtains them via
r.getProgram(variant).  Program identity is an externally assigned id. -/
structure ProgramIds where
  pickObject : Nat
  pickInstance : Nat
  pickGroup : Nat
  depthVariant : Nat
  colorBlended : Nat
  colorWboit : Nat
deriving DecidableEq, Repr

def ProgramIds.get (p : ProgramIds) : Variant → Nat
  | Variant.pickObject => p.pickObject
  | Variant.pickInstance => p.pickInstance
  | Variant.pickGroup => p.pickGroup
  | Variant.depthVariant => p.depthVariant
  | Variant.colorBlended => p.colorBlended
  | Variant.colorWboit => p.colorWboit

/-- The per-renderable value cells read by the renderer.  Optional defines
(dRenderMode, dPointFilledCircle, dXrayShaded, dDoubleSided, dFlipSided) are
Options, matching the presence probes in the source; uBackgroundColor is only
ever tested for presence, so just that presence bit is kept. -/
structure RenderableValues where
  alpha : ℚ
  uAlpha : ℚ
  transparencyAverage : ℚ
  dRenderMode : Option RenderMode
  dPointFilledCircle : Option Bool
  dXrayShaded : Option Bool
  hasBackgroundColor : Bool
  dDoubleSided : Option Bool
  hasReflection : Bool
  dFlipSided : Option Bool
  dClipObjectCount : Nat
  dClipVariant : ClipVariantT
deriving DecidableEq, Repr

/-- The renderable state record read by the renderer. -/
structure RenderableState where
  visible : Bool
  pickable : Bool
  colorOnly : Bool
  isOpaque : Bool
  writeDepth : Bool
  noClip : Bool
  alphaFactor : ℚ
deriving DecidableEq, Repr

/-- A drawable as seen by the renderer. -/
structure Renderable where
  id : Nat
  state : RenderableState
  values : RenderableValues
  programs : ProgramIds
deriving DecidableEq, Repr

/-- alpha as recomputed in the WBOIT loops:
clamp(r.values.alpha.ref.value * r.state.alphaFactor, 0, 1). -/
def getAlpha (r : Renderable) : ℚ :=
  clampQ (r.values.alpha * r.state.alphaFactor) 0 1

/-- The loop condition of renderWboitOpaque:
alpha === 1 and transparencyAverage !== 1 and dRenderMode is not volume and
dPointFilledCircle is not truthy and dXrayShaded is not truthy. -/
def wboitOpaquePassPred (r : Renderable) : Bool :=
  decide (getAlpha r = 1) &&
  decide (r.values.transparencyAverage ≠ 1) &&
  decide (r.values.dRenderMode ≠ some RenderMode.volume) &&
  !(r.values.dPointFilledCircle.getD false) &&
  !(r.values.dXrayShaded.getD false)

/-- The loop condition of renderWboitTransparent:
alpha < 1, or transparencyAverage > 0, or dRenderMode is volume, or
dPointFilledCircle is truthy, or uBackgroundColor is present, or
dXrayShaded is truthy. -/
def wboitTransparentPassPred (r : Renderable) : Bool :=
  decide (getAlpha r < 1) ||
  decide (r.values.transparencyAverage > 0) ||
  decide (r.values.dRenderMode = some RenderMode.volume) ||
  r.values.dPointFilledCircle.getD false ||
  r.values.hasBackgroundColor ||
  r.values.dXrayShaded.getD false

/-- Blend function configurations used by the renderer: blendFunc(ONE,
ONE_MINUS_SRC_ALPHA) for premultiplied output and blendFuncSeparate(SRC_ALPHA,
ONE_MINUS_SRC_ALPHA, ONE, ONE_MINUS_SRC_ALPHA) otherwise. -/
inductive BlendFuncState where
  | premultiplied
  | separateAlpha
deriving DecidableEq, Repr

inductive CullFaceMode where
  | front
  | back
deriving DecidableEq, Repr

/-- The ambient WebGL state mutated by the renderer (the slice the sources
touch): blend, depth test, depth mask, culling, winding, scissor, color mask
and the program and render-item markers of the execution context. -/
structure GLState where
  blendEnabled : Bool
  depthTestEnabled : Bool
  depthMask : Bool
  cullFaceEnabled : Bool
  frontFaceCCW : Bool
  cullFaceMode : CullFaceMode
  blendFunc : BlendFuncState
  scissorTest : Bool
  colorMaskAll : Bool
  currentProgramId : Int
  currentRenderItemId : Int
deriving DecidableEq, Repr

/-- A recorded draw submission: the renderable as drawn (after the clip
define resync), the variant, and the depth mask in force at submission. -/
structure DrawEvent where
  r : Renderable
  variant : Variant
  depthMask : Bool
deriving DecidableEq, Repr

/-- Renderer execution context: the GL state, the dirty flag for the global
uniform block, plus instrumentation (the count of full global-uniform uploads,
the uRenderWboit flag and the trace of draw submissions). -/
structure RendererCtx where
  gl : GLState
  globalUniformsNeedUpdate : Bool
  uRenderWboit : Bool
  uploads : Nat
  draws : List DrawEvent
deriving DecidableEq, Repr

/-- Clip-define resync at the head of renderObject: a noClip object has its
clip-object-count define forced to 0, otherwise count and variant defines are
moved to the current global clip settings, each via a changed comparison on
the per-object cell.  The r.update() relink this triggers lives outside the
sources; program handles are carried per renderable. -/
def resyncClip (clipCount : Nat) (clipVariant : ClipVariantT) (r : Renderable) : Renderable :=
  if r.state.noClip then
    if r.values.dClipObjectCount ≠ 0 then
      { r with values := { r.values with dClipObjectCount := 0 } }
    else r
  else
    let r1 :=
      if r.values.dClipObjectCount ≠ clipCount then
        { r with values := { r.values with dClipObjectCount := clipCount } }
      else r
    if r1.values.dClipVariant ≠ clipVariant then
      { r1 with values := { r1.values with dClipVariant := clipVariant } }
    else r1

/-- The deterministic face/cull/depth rule table applied before each draw.
Volumetric objects (dRenderMode present) disable culling and force CCW
winding; in the colorBlended variant they additionally disable the depth test
and depth writes when rendering a pure volume or when fragDepth is
unsupported, and otherwise depth-test with depth writes iff uAlpha is 1.
Non-volumetric objects cull back faces unless double-sided or reflective and
honor the flip-winding define. -/
def applyDrawState (fragDepth : Bool) (variant : Variant) (r : Renderable)
    (gl : GLState) : GLState :=
  match r.values.dRenderMode with
  | some rm =>
    let gl1 := { gl with cullFaceEnabled := false, frontFaceCCW := true }
    if variant = Variant.colorBlended then
      if rm = RenderMode.volume ∨ fragDepth = false then
        { gl1 with depthTestEnabled := false, depthMask := false }
      else
        { gl1 with depthTestEnabled := true, depthMask := decide (r.values.uAlpha = 1) }
    else gl1
  | none =>
    let gl1 :=
      match r.values.dDoubleSided with
      | some ds =>
        if ds || r.values.hasReflection then { gl with cullFaceEnabled := false }
        else { gl with cullFaceEnabled := true }
      | none => { gl with cullFaceEnabled := false }
    match r.values.dFlipSided with
    | some fs =>
      if fs then { gl1 with frontFaceCCW := false, cullFaceMode := CullFaceMode.front }
      else { gl1 with frontFaceCCW := true, cullFaceMode := CullFaceMode.back }
    | none => { gl1 with frontFaceCCW := true, cullFaceMode := CullFaceMode.back }

/-- Per-object dispatch (renderObject in the source).  Skips invisible
objects and non-pickable objects under pick variants; resyncs the clip
defines; binds the program when its id differs from the tracked one, marking
the global uniforms dirty; uploads the full global-uniform list only when the
dirty flag is set; applies the GL rule table; and finally records the draw.
Returns the context and the (possibly define-resynced) renderable. -/
def renderObject (fragDepth : Bool) (clipCount : Nat) (clipVariant : ClipVariantT)
    (ctx : RendererCtx) (r : Renderable) (variant : Variant) :
    RendererCtx × Renderable :=
  if !r.state.visible || (!r.state.pickable && isPickVariant variant) then
    (ctx, r)
  else
    let r2 := resyncClip clipCount clipVariant r
    let progId : Int := (r2.programs.get variant : Int)
    let changed : Bool := decide (ctx.gl.currentProgramId ≠ progId)
    let needUpd : Bool := ctx.globalUniformsNeedUpdate || changed
    let gl1 := if changed then { ctx.gl with currentProgramId := progId } else ctx.gl
    let uploads := if needUpd then ctx.uploads + 1 else ctx.uploads
    let gl2 := applyDrawState fragDepth variant r2 gl1
    ({ gl := gl2
       globalUniformsNeedUpdate := false
       uRenderWboit := ctx.uRenderWboit
       uploads := uploads
       draws := ctx.draws ++ [{ r := r2, variant := variant, depthMask := gl2.depthMask }] },
     r2)

/-- One renderer pass loop: iterate the group renderables in order, calling
renderObject on those passing the pass filter (the filter is the loop
condition in each render function of the source).  The renderable list is
threaded since renderObject updates per-object define cells in place. -/
def renderLoop (fragDepth : Bool) (clipCount : Nat) (clipVariant : ClipVariantT)
    (variant : Variant) (pred : Renderable → Bool) :
    RendererCtx → List Renderable → RendererCtx × List Renderable
  | ctx, [] => (ctx, [])
  | ctx, r :: rest =>
    let first :=
      if pred r then renderObject fragDepth clipCount clipVariant ctx r variant
      else (ctx, r)
    let next := renderLoop fragDepth clipCount clipVariant variant pred first.1 rest
    (next.1, first.2 :: next.2)

/-- Pass-local preamble (updateInternal in the source): refresh model-view
uniforms (value cells not tracked here), set uRenderWboit, enable scissor
test and full color mask, reset viewport and scissor, mark the global
uniforms dirty and clear the render-item marker. -/
def updateInternal (renderWboit : Bool) (ctx : RendererCtx) : RendererCtx :=
  { ctx with
    gl := { ctx.gl with scissorTest := true, colorMaskAll := true, currentRenderItemId := -1 }
    uRenderWboit := renderWboit
    globalUniformsNeedUpdate := true }

/-- The renderPick pass: blending off, depth test and writes on, then draws
every renderable that is not color-only, under the requested pick variant. -/
def renderPick (fragDepth : Bool) (clipCount : Nat) (clipVariant : ClipVariantT)
    (variant : Variant) (ctx : RendererCtx) (g : List Renderable) :
    RendererCtx × List Renderable :=
  let ctx1 := { ctx with gl := { ctx.gl with blendEnabled := false, depthTestEnabled := true, depthMask := true } }
  let ctx2 := updateInternal false ctx1
  renderLoop fragDepth clipCount clipVariant variant (fun r => !r.state.colorOnly) ctx2 g

/-- The renderDepth pass: blending off, depth test and writes on, then draws
every renderable in the depth variant. -/
def renderDepth (fragDepth : Bool) (clipCount : Nat) (clipVariant : ClipVariantT)
    (ctx : RendererCtx) (g : List Renderable) : RendererCtx × List Renderable :=
  let ctx1 := { ctx with gl := { ctx.gl with blendEnabled := false, depthTestEnabled := true, depthMask := true } }
  let ctx2 := updateInternal false ctx1
  renderLoop fragDepth clipCount clipVariant Variant.depthVariant (fun _ => true) ctx2 g

/-- The renderBlendedOpaque pass: blending off, depth test and writes on,
then draws exactly the renderables whose state flags them opaque. -/
def renderBlendedOpaque (fragDepth : Bool) (clipCount : Nat) (clipVariant : ClipVariantT)
    (ctx : RendererCtx) (g : List Renderable) : RendererCtx × List Renderable :=
  let ctx1 := { ctx with gl := { ctx.gl with blendEnabled := false, depthTestEnabled := true, depthMask := true } }
  let ctx2 := updateInternal false ctx1
  renderLoop fragDepth clipCount clipVariant Variant.colorBlended (fun r => r.state.isOpaque) ctx2 g

/-- The renderBlendedTransparent pass: depth test on, blend function chosen
by the transparent-background flag, blending on; then two sub-passes over the
non-opaque renderables, first those with writeDepth under depth mask true,
then those without under depth mask false. -/
def renderBlendedTransparent (transparentBackground : Bool) (fragDepth : Bool)
    (clipCount : Nat) (clipVariant : ClipVariantT)
    (ctx : RendererCtx) (g : List Renderable) : RendererCtx × List Renderable :=
  let ctx1 := { ctx with gl := { ctx.gl with depthTestEnabled := true } }
  let ctx2 := updateInternal false ctx1
  let bf := if transparentBackground then BlendFuncState.premultiplied else BlendFuncState.separateAlpha
  let ctx3 := { ctx2 with gl := { ctx2.gl with blendFunc := bf, blendEnabled := true } }
  let ctx4 := { ctx3 with gl := { ctx3.gl with depthMask := true } }
  let stepA := renderLoop fragDepth clipCount clipVariant Variant.colorBlended
    (fun r => !r.state.isOpaque && r.state.writeDepth) ctx4 g
  let ctx5 := { stepA.1 with gl := { stepA.1.gl with depthMask := false } }
  renderLoop fragDepth clipCount clipVariant Variant.colorBlended
    (fun r => !r.state.isOpaque && !r.state.writeDepth) ctx5 stepA.2

/-- The renderBlended pass: opaque then transparent over the same group. -/
def renderBlended (transparentBackground : Bool) (fragDepth : Bool)
    (clipCount : Nat) (clipVariant : ClipVariantT)
    (ctx : RendererCtx) (g : List Renderable) : RendererCtx × List Renderable :=
  let stepA := renderBlendedOpaque fragDepth clipCount clipVariant ctx g
  renderBlendedTransparent transparentBackground fragDepth clipCount clipVariant stepA.1 stepA.2

/-- The renderBlendedVolume pass: premultiplied blending on, then draws every
renderable of the volume group in the colorBlended variant. -/
def renderBlendedVolume (fragDepth : Bool) (clipCount : Nat) (clipVariant : ClipVariantT)
    (ctx : RendererCtx) (g : List Renderable) : RendererCtx × List Renderable :=
  let ctx1 := { ctx with gl := { ctx.gl with blendFunc := BlendFuncState.premultiplied, blendEnabled := true } }
  let ctx2 := updateInternal false ctx1
  renderLoop fragDepth clipCount clipVariant Variant.colorBlended (fun _ => true) ctx2 g

/-- The renderWboitOpaque pass: blending off, depth test and writes on, then
draws the renderables passing the WBOIT-opaque loop condition in the
colorWboit variant. -/
def renderWboitOpaque (fragDepth : Bool) (clipCount : Nat) (clipVariant : ClipVariantT)
    (ctx : RendererCtx) (g : List Renderable) : RendererCtx × List Renderable :=
  let ctx1 := { ctx with gl := { ctx.gl with blendEnabled := false, depthTestEnabled := true, depthMask := true } }
  let ctx2 := updateInternal false ctx1
  renderLoop fragDepth clipCount clipVariant Variant.colorWboit wboitOpaquePassPred ctx2 g

/-- The renderWboitTransparent pass: no GL state preamble beyond
updateInternal (with uRenderWboit set), then draws the renderables passing
the WBOIT-transparent loop condition in the colorWboit variant. -/
def renderWboitTransparent (fragDepth : Bool) (clipCount : Nat) (clipVariant : ClipVariantT)
    (ctx : RendererCtx) (g : List Renderable) : RendererCtx × List Renderable :=
  let ctx1 := updateInternal true ctx
  renderLoop fragDepth clipCount clipVariant Variant.colorWboit wboitTransparentPassPred ctx1 g

/-- WebGL-default initial state with no program bound. -/
def initialGL : GLState :=
  { blendEnabled := false
    depthTestEnabled := false
    depthMask := true
    cullFaceEnabled := false
    frontFaceCCW := true
    cullFaceMode := CullFaceMode.back
    blendFunc := BlendFuncState.separateAlpha
    scissorTest := false
    colorMaskAll := true
    currentProgramId := -1
    currentRenderItemId := -1 }

/-- Fresh renderer execution context with an empty draw trace. -/
def ctx0 : RendererCtx :=
  { gl := initialGL
    globalUniformsNeedUpdate := true
    uRenderWboit := false
    uploads := 0
    draws := [] }

/-! ## Draw pass orchestrator (the DrawPass class of draw.ts) -/

/-- Pixel dimensions of a render target or texture. -/
structure Dims where
  width : Nat
  height : Nat
deriving DecidableEq, Repr

/-- The WBOIT sub-pass as owned by DrawPass: whether the device actually
enabled it (WboitPass internals are an external collaborator) and its size. -/
structure WboitState where
  enabled : Bool
  size : Dims
deriving DecidableEq, Repr

/-- The state owned by a DrawPass: the color target, the depth target, the
two packed-depth intermediate targets (present exactly when the device lacks
native depth textures), the two depth textures (aliased to the intermediate
targets when present, standalone otherwise), the uTexSize uniform of the
depth-merge renderable, and the optional WBOIT sub-pass. -/
structure DrawPassState where
  colorTarget : Dims
  packedDepth : Bool
  depthTarget : Dims
  depthTargetPrimitives : Option Dims
  depthTargetVolumes : Option Dims
  depthTexturePrimitives : Dims
  depthTextureVolumes : Dims
  depthMergeTexSize : Dims
  wboit : Option WboitState
deriving DecidableEq, Repr

/-- DrawPass construction: packedDepth is the lack of the depthTexture
extension; the intermediate depth targets exist only under packedDepth, in
which case the depth textures are the targets own textures, otherwise they
are standalone textures defined at the same size; the depth-merge uTexSize is
created from the primitives depth texture; the WBOIT sub-pass is created only
when requested (its internal enabled capability is device dependent). -/
def DrawPassState.create (width height : Nat) (depthTextureExt : Bool)
    (enableWboit : Bool) (wboitCapable : Bool) : DrawPassState :=
  let packedDepth := !depthTextureExt
  { colorTarget := ⟨width, height⟩
    packedDepth := packedDepth
    depthTarget := ⟨width, height⟩
    depthTargetPrimitives := if packedDepth then some ⟨width, height⟩ else none
    depthTargetVolumes := if packedDepth then some ⟨width, height⟩ else none
    depthTexturePrimitives := ⟨width, height⟩
    depthTextureVolumes := ⟨width, height⟩
    depthMergeTexSize := ⟨width, height⟩
    wboit := if enableWboit then some { enabled := wboitCapable, size := ⟨width, height⟩ } else none }

/-- DrawPass.setSize: early-out when the requested size equals the color
target size; otherwise resize color and depth targets, resize each
intermediate depth target when present (its texture is the same object) or
re-define the standalone depth texture, update the depth-merge uTexSize, and
resize the WBOIT sub-pass when it is enabled. -/
def DrawPassState.setSize (s : DrawPassState) (width height : Nat) : DrawPassState :=
  let w := s.colorTarget.width
  let h := s.colorTarget.height
  if width ≠ w ∨ height ≠ h then
    let s1 := { s with colorTarget := ⟨width, height⟩, depthTarget := ⟨width, height⟩ }
    let s2 :=
      match s1.depthTargetPrimitives with
      | some _ =>
        { s1 with depthTargetPrimitives := some ⟨width, height⟩
                  depthTexturePrimitives := ⟨width, height⟩ }
      | none => { s1 with depthTexturePrimitives := ⟨width, height⟩ }
    let s3 :=
      match s2.depthTargetVolumes with
      | some _ =>
        { s2 with depthTargetVolumes := some ⟨width, height⟩
                  depthTextureVolumes := ⟨width, height⟩ }
      | none => { s2 with depthTextureVolumes := ⟨width, height⟩ }
    let s4 := { s3 with depthMergeTexSize := ⟨width, height⟩ }
    match s4.wboit with
    | some wb => if wb.enabled then { s4 with wboit := some { wb with size := ⟨width, height⟩ } } else s4
    | none => s4
  else s

/-- The wboitEnabled getter: double-negated optional chaining on the
enabled capability of the owned WBOIT sub-pass. -/
def DrawPassState.wboitEnabled (s : DrawPassState) : Bool :=
  match s.wboit with
  | some w => w.enabled
  | none => false

/-- Which scene group a pass-level event concerns. -/
inductive GroupKind where
  | primitives
  | volumes
deriving DecidableEq, Repr

/-- Helper overlay scenes. -/
inductive HelperKind where
  | debugHelper
  | handleHelper
  | cameraHelper
deriving DecidableEq, Repr

/-- Pass-level events issued by the DrawPass orchestrator, in program
order.  Each corresponds to one call in draw.ts. -/
inductive PassEvent where
  | unbindFramebuffer
  | bindColorTarget
  | bindDrawTarget
  | attachDepthPrimitives
  | attachDepthVolumes
  | bindDepthTargetPrimitives
  | bindDepthTargetVolumes
  | clearEvt (toBackgroundColor : Bool)
  | clearDepthEvt
  | blendedOpaqueEvt (g : GroupKind)
  | blendedTransparentEvt (g : GroupKind)
  | blendedVolumeEvt (g : GroupKind)
  | depthEvt (g : GroupKind)
  | depthMergeEvt
  | wboitOpaqueEvt (g : GroupKind)
  | wboitTransparentEvt (g : GroupKind)
  | wboitBindEvt
  | wboitResolveEvt
  | helperBlendedEvt (h : HelperKind)
  | setViewportEvt
  | updateCameraEvt
  | flushEvt
deriving DecidableEq, Repr

/-- The simple blended path (DrawPass._renderBlended) as its pass-event
trace.  When rendering to the drawing buffer the framebuffer is unbound and
only opaque and transparent primitives are drawn; otherwise the color target
is bound (with the primitives depth texture attached when native depth
textures exist), volumes are rendered against the primitives depth, the
packed-depth fallback adds separate depth-only passes, and the pass ends with
a depth merge. -/
def renderBlendedTrace (s : DrawPassState) (toDrawingBuffer : Bool) : List PassEvent :=
  (if toDrawingBuffer then [PassEvent.unbindFramebuffer]
   else
     [PassEvent.bindColorTarget] ++
     (if !s.packedDepth then [PassEvent.attachDepthPrimitives] else []))
  ++ [PassEvent.clearEvt true, PassEvent.blendedOpaqueEvt GroupKind.primitives]
  ++ (if !toDrawingBuffer ∧ s.depthTargetPrimitives.isSome then
        [PassEvent.bindDepthTargetPrimitives, PassEvent.clearEvt false,
         PassEvent.depthEvt GroupKind.primitives, PassEvent.bindColorTarget]
      else [])
  ++ (if !toDrawingBuffer then
        (if !s.packedDepth then [PassEvent.attachDepthVolumes, PassEvent.clearDepthEvt] else [])
        ++ [PassEvent.blendedVolumeEvt GroupKind.volumes]
        ++ (if s.depthTargetVolumes.isSome then
              [PassEvent.bindDepthTargetVolumes, PassEvent.clearEvt false,
               PassEvent.depthEvt GroupKind.volumes, PassEvent.bindColorTarget]
            else [])
        ++ (if !s.packedDepth then [PassEvent.attachDepthPrimitives] else [])
      else [])
  ++ [PassEvent.blendedTransparentEvt GroupKind.primitives]
  ++ (if !toDrawingBuffer then [PassEvent.depthMergeEvt, PassEvent.bindColorTarget] else [])

/-- The WBOIT path (DrawPass._renderWboit) as its pass-event trace, emitted
only when the guard at its head passes. -/
def renderWboitTrace (_s : DrawPassState) (toDrawingBuffer : Bool) : List PassEvent :=
  [if toDrawingBuffer then PassEvent.bindDrawTarget else PassEvent.bindColorTarget,
   PassEvent.clearEvt true,
   PassEvent.attachDepthPrimitives,
   if toDrawingBuffer then PassEvent.bindDrawTarget else PassEvent.bindColorTarget,
   PassEvent.wboitOpaqueEvt GroupKind.primitives,
   PassEvent.attachDepthVolumes,
   if toDrawingBuffer then PassEvent.bindDrawTarget else PassEvent.bindColorTarget,
   PassEvent.clearDepthEvt,
   PassEvent.wboitOpaqueEvt GroupKind.volumes,
   PassEvent.depthMergeEvt,
   PassEvent.wboitBindEvt,
   PassEvent.wboitTransparentEvt GroupKind.primitives,
   PassEvent.wboitTransparentEvt GroupKind.volumes,
   PassEvent.attachDepthPrimitives,
   if toDrawingBuffer then PassEvent.bindDrawTarget else PassEvent.bindColorTarget,
   PassEvent.wboitResolveEvt]

/-- DrawPass._renderWboit: throws (expected wboit to be enabled) when the
WBOIT sub-pass is absent or not enabled, otherwise emits its trace. -/
def renderWboitRun (s : DrawPassState) (toDrawingBuffer : Bool) :
    Except String (List PassEvent) :=
  if s.wboitEnabled then Except.ok (renderWboitTrace s toDrawingBuffer)
  else Except.error "expected wboit to be enabled"

/-- Which helper overlays are enabled this frame. -/
structure HelperFlags where
  debugHelper : Bool
  handleHelper : Bool
  cameraHelper : Bool
deriving DecidableEq, Repr

/-- Trace of the helper overlay rendering at the tail of DrawPass._render. -/
def helperTrace (hf : HelperFlags) : List PassEvent :=
  (if hf.debugHelper then [PassEvent.helperBlendedEvt HelperKind.debugHelper] else [])
  ++ (if hf.handleHelper then [PassEvent.helperBlendedEvt HelperKind.handleHelper] else [])
  ++ (if hf.cameraHelper then [PassEvent.helperBlendedEvt HelperKind.cameraHelper] else [])

/-- DrawPass._render (one eye): set viewport, refresh camera uniforms, then
dispatch to the WBOIT path when wboitEnabled and to the blended path
otherwise, render helper overlays, and flush. -/
def renderSingle (s : DrawPassState) (hf : HelperFlags) (toDrawingBuffer : Bool) :
    Except String (List PassEvent) :=
  let head := [PassEvent.setViewportEvt, PassEvent.updateCameraEvt]
  if s.wboitEnabled then
    match renderWboitRun s toDrawingBuffer with
    | Except.ok evts => Except.ok (head ++ evts ++ helperTrace hf ++ [PassEvent.flushEvt])
    | Except.error e => Except.error e
  else
    Except.ok (head ++ renderBlendedTrace s toDrawingBuffer ++ helperTrace hf ++ [PassEvent.flushEvt])

/-- Whether the camera passed to DrawPass.render is a stereo pair. -/
inductive CameraKind where
  | mono
  | stereo
deriving DecidableEq, Repr

/-- DrawPass.render: sets the transparent-background flag and drawing-buffer
size on the renderer, then runs the single-eye sequence twice for a stereo
camera (left then right, same destination) and once otherwise. -/
def renderRun (s : DrawPassState) (hf : HelperFlags) (cam : CameraKind)
    (toDrawingBuffer : Bool) : Except String (List PassEvent) :=
  match cam with
  | CameraKind.mono => renderSingle s hf toDrawingBuffer
  | CameraKind.stereo =>
    match renderSingle s hf toDrawingBuffer with
    | Except.ok left =>
      match renderSingle s hf toDrawingBuffer with
      | Except.ok right => Except.ok (left ++ right)
      | Except.error e => Except.error e
    | Except.error e => Except.error e

/-- Boolean success test for the Except results of the render entry points. -/
def exceptOk {α : Type} : Except String α → Bool
  | Except.ok _ => true
  | Except.error _ => false

/-! ## Renderer configuration (RendererParams / setProps / props) -/

/-- Colors are 24-bit packed integers (the Color type of mol-util). -/
abbrev ColorT := Nat

/-- Rational 3-vector, standing in for the Vec3 of mol-math. -/
abbrev Vec3Q := ℚ × ℚ × ℚ

/-- Color.toVec3Normalized: unpack the three 8-bit channels and divide
each by 255. -/
def colorToVec3Normalized (c : ColorT) : Vec3Q :=
  ((((c / 65536) % 256 : Nat) : ℚ) / 255,
   (((c / 256) % 256 : Nat) : ℚ) / 255,
   ((c % 256 : Nat) : ℚ) / 255)

/-- The five numeric knobs of a lighting style. -/
structure StyleValues where
  lightIntensity : ℚ
  ambientIntensity : ℚ
  metalness : ℚ
  roughness : ℚ
  reflectivity : ℚ
deriving DecidableEq, Repr

/-- The style configuration: one of five fixed presets or a fully custom
5-tuple (the MappedStatic parameter of RendererParams). -/
inductive StyleProp where
  | custom (params : StyleValues)
  | flat
  | matte
  | glossy
  | metallic
  | plastic
deriving DecidableEq, Repr

/-- getStyle: map a style configuration to its five numeric values. -/
def getStyle : StyleProp → StyleValues
  | StyleProp.custom params => params
  | StyleProp.flat =>
    { lightIntensity := 0, ambientIntensity := 1
      metalness := 0, roughness := 2/5, reflectivity := 1/2 }
  | StyleProp.matte =>
    { lightIntensity := 3/5, ambientIntensity := 2/5
      metalness := 0, roughness := 1, reflectivity := 1/2 }
  | StyleProp.glossy =>
    { lightIntensity := 3/5, ambientIntensity := 2/5
      metalness := 0, roughness := 2/5, reflectivity := 1/2 }
  | StyleProp.metallic =>
    { lightIntensity := 3/5, ambientIntensity := 2/5
      metalness := 2/5, roughness := 3/5, reflectivity := 1/2 }
  | StyleProp.plastic =>
    { lightIntensity := 3/5, ambientIntensity := 2/5
      metalness := 0, roughness := 1/5, reflectivity := 1/2 }

/-- Modelled from the spec: the clip-object type family (plane, sphere, box,
cone) with its numeric codes; the Clipping.Type enum itself lives outside the
given sources. -/
inductive ClipTypeK where
  | plane
  | sphere
  | box
  | cone
deriving DecidableEq, Repr

def clipTypeCode : ClipTypeK → Nat
  | ClipTypeK.plane => 1
  | ClipTypeK.sphere => 2
  | ClipTypeK.box => 3
  | ClipTypeK.cone => 4

/-- Rotation of a clip object in the configuration: axis and angle in
degrees. -/
structure ClipRotationProps where
  axis : Vec3Q
  angle : ℚ
deriving DecidableEq, Repr

/-- One configured clip object. -/
structure ClipObjectProps where
  type : ClipTypeK
  position : Vec3Q
  rotation : ClipRotationProps
  scale : Vec3Q
deriving DecidableEq, Repr

/-- The clip group of RendererParams: evaluation variant plus object list. -/
structure ClipProps where
  variant : ClipVariantT
  objects : List ClipObjectProps
deriving DecidableEq, Repr

/-- Stand-in for the quaternion produced by Quat.setAxisAngle(axis,
degToRad(angle)) of mol-math (outside the given sources): the axis-angle
data it encodes is kept as-is, since nothing in the pass inspects the four
float components. -/
structure QuatRepr where
  axis : Vec3Q
  angleDeg : ℚ
deriving DecidableEq, Repr

/-- The flattened clip-object arrays built by getClip (capacity 5; slots
beyond count keep their previous contents). -/
structure ClipArrays where
  count : Nat
  type : List Nat
  position : List ℚ
  rotationQ : List QuatRepr
  scale : List ℚ
deriving DecidableEq, Repr

/-- Write a Vec3 into three consecutive slots starting at index i
(Vec3.toArray in the source). -/
def writeVec3 (dst : List ℚ) (i : Nat) (v : Vec3Q) : List ℚ :=
  ((dst.set i v.1).set (i + 1) v.2.1).set (i + 2) v.2.2

/-- The write loop of getClip over the configured objects. -/
def writeClipObjects : List ClipObjectProps → Nat → ClipArrays → ClipArrays
  | [], _, c => c
  | p :: rest, i, c =>
    let c1 := { c with
      type := c.type.set i (clipTypeCode p.type)
      position := writeVec3 c.position (i * 3) p.position
      rotationQ := c.rotationQ.set i { axis := p.rotation.axis, angleDeg := p.rotation.angle }
      scale := writeVec3 c.scale (i * 3) p.scale }
    writeClipObjects rest (i + 1) c1

/-- The derived clip state (the Clip record in the source). -/
structure ClipState where
  variant : ClipVariantT
  objects : ClipArrays
deriving DecidableEq, Repr

/-- getClip: reuse the previous arrays when present (slots beyond count are
not cleared), else start from the default-filled arrays, then write one slot
group per configured object and set the count. -/
def getClip (props : ClipProps) (prev : Option ClipState) : ClipState :=
  let base :=
    match prev with
    | some cl => cl.objects
    | none =>
      { count := 0
        type := List.replicate 5 1
        position := List.replicate 15 0
        rotationQ := List.replicate 5 { axis := (0, 0, 0), angleDeg := 0 }
        scale := List.replicate 15 1 }
  let written := writeClipObjects props.objects 0 base
  { variant := props.variant
    objects := { written with count := props.objects.length } }

/-- The renderer configuration record (PD.Values of RendererParams). -/
structure RendererProps where
  backgroundColor : ColorT
  pickingAlphaThreshold : ℚ
  interiorDarkening : ℚ
  interiorColorFlag : Bool
  interiorColor : ColorT
  highlightColor : ColorT
  selectColor : ColorT
  style : StyleProp
  clip : ClipProps
deriving DecidableEq, Repr

/-- A partial update for setProps: absent fields are none. -/
structure PropsUpdate where
  backgroundColor : Option ColorT
  pickingAlphaThreshold : Option ℚ
  interiorDarkening : Option ℚ
  interiorColorFlag : Option Bool
  interiorColor : Option ColorT
  highlightColor : Option ColorT
  selectColor : Option ColorT
  style : Option StyleProp
  clip : Option ClipProps
deriving DecidableEq, Repr

/-- A ValueCell as far as update tracking goes: the held value plus a
version counter bumped by every ValueCell.update. -/
structure Cell (α : Type) where
  value : α
  version : Nat
deriving DecidableEq, Repr

/-- ValueCell.update: write unconditionally (always an upload). -/
def cellUpdate {α : Type} (c : Cell α) (v : α) : Cell α :=
  { value := v, version := c.version + 1 }

/-- ValueCell.updateIfChanged: write only when the value differs. -/
def cellUpdateIfChanged {α : Type} [DecidableEq α] (c : Cell α) (v : α) : Cell α :=
  if c.value = v then c else cellUpdate c v

/-- The renderer state that setProps touches: the current configuration, the
derived style values and clip state, and every global-uniform cell written by
setProps. -/
structure RendererState where
  p : RendererProps
  style : StyleValues
  clip : ClipState
  uFogColor : Cell Vec3Q
  uPickingAlphaThreshold : Cell ℚ
  uInteriorDarkening : Cell ℚ
  uInteriorColorFlag : Cell Bool
  uInteriorColor : Cell Vec3Q
  uHighlightColor : Cell Vec3Q
  uSelectColor : Cell Vec3Q
  uLightIntensity : Cell ℚ
  uAmbientIntensity : Cell ℚ
  uMetalness : Cell ℚ
  uRoughness : Cell ℚ
  uReflectivity : Cell ℚ
  uClipObjectType : Cell (List Nat)
  uClipObjectPosition : Cell (List ℚ)
  uClipObjectRotation : Cell (List QuatRepr)
  uClipObjectScale : Cell (List ℚ)
deriving DecidableEq, Repr

/-- The backgroundColor block of setProps: guarded by presence and strict
inequality with the stored value; updates uFogColor. -/
def setBackgroundColor (v : Option ColorT) (s : RendererState) : RendererState :=
  match v with
  | some c =>
    if c ≠ s.p.backgroundColor then
      { s with p := { s.p with backgroundColor := c }
               uFogColor := cellUpdate s.uFogColor (colorToVec3Normalized c) }
    else s
  | none => s

/-- The pickingAlphaThreshold block of setProps. -/
def setPickingAlphaThreshold (v : Option ℚ) (s : RendererState) : RendererState :=
  match v with
  | some q =>
    if q ≠ s.p.pickingAlphaThreshold then
      { s with p := { s.p with pickingAlphaThreshold := q }
               uPickingAlphaThreshold := cellUpdate s.uPickingAlphaThreshold q }
    else s
  | none => s

/-- The interiorDarkening block of setProps. -/
def setInteriorDarkening (v : Option ℚ) (s : RendererState) : RendererState :=
  match v with
  | some q =>
    if q ≠ s.p.interiorDarkening then
      { s with p := { s.p with interiorDarkening := q }
               uInteriorDarkening := cellUpdate s.uInteriorDarkening q }
    else s
  | none => s

/-- The interiorColorFlag block of setProps. -/
def setInteriorColorFlag (v : Option Bool) (s : RendererState) : RendererState :=
  match v with
  | some b =>
    if b ≠ s.p.interiorColorFlag then
      { s with p := { s.p with interiorColorFlag := b }
               uInteriorColorFlag := cellUpdate s.uInteriorColorFlag b }
    else s
  | none => s

/-- The interiorColor block of setProps. -/
def setInteriorColor (v : Option ColorT) (s : RendererState) : RendererState :=
  match v with
  | some c =>
    if c ≠ s.p.interiorColor then
      { s with p := { s.p with interiorColor := c }
               uInteriorColor := cellUpdate s.uInteriorColor (colorToVec3Normalized c) }
    else s
  | none => s

/-- The highlightColor block of setProps. -/
def setHighlightColor (v : Option ColorT) (s : RendererState) : RendererState :=
  match v with
  | some c =>
    if c ≠ s.p.highlightColor then
      { s with p := { s.p with highlightColor := c }
               uHighlightColor := cellUpdate s.uHighlightColor (colorToVec3Normalized c) }
    else s
  | none => s

/-- The selectColor block of setProps. -/
def setSelectColor (v : Option ColorT) (s : RendererState) : RendererState :=
  match v with
  | some c =>
    if c ≠ s.p.selectColor then
      { s with p := { s.p with selectColor := c }
               uSelectColor := cellUpdate s.uSelectColor (colorToVec3Normalized c) }
    else s
  | none => s

/-- The style block of setProps: guarded only by presence; stores the new
configuration, recomputes the derived style values, and refreshes the five
material uniforms via changed comparisons. -/
def setStyleProp (v : Option StyleProp) (s : RendererState) : RendererState :=
  match v with
  | some st =>
    let sty := getStyle st
    { s with p := { s.p with style := st }
             style := sty
             uLightIntensity := cellUpdateIfChanged s.uLightIntensity sty.lightIntensity
             uAmbientIntensity := cellUpdateIfChanged s.uAmbientIntensity sty.ambientIntensity
             uMetalness := cellUpdateIfChanged s.uMetalness sty.metalness
             uRoughness := cellUpdateIfChanged s.uRoughness sty.roughness
             uReflectivity := cellUpdateIfChanged s.uReflectivity sty.reflectivity }
  | none => s

/-- The clip block of setProps: guarded by presence and a deep-equality
comparison; rebuilds the clip arrays in place and writes the four clip
uniforms unconditionally. -/
def setClipProp (v : Option ClipProps) (s : RendererState) : RendererState :=
  match v with
  | some c =>
    if c ≠ s.p.clip then
      let cl := getClip c (some s.clip)
      { s with p := { s.p with clip := c }
               clip := cl
               uClipObjectPosition := cellUpdate s.uClipObjectPosition cl.objects.position
               uClipObjectRotation := cellUpdate s.uClipObjectRotation cl.objects.rotationQ
               uClipObjectScale := cellUpdate s.uClipObjectScale cl.objects.scale
               uClipObjectType := cellUpdate s.uClipObjectType cl.objects.type }
    else s
  | none => s

/-- setProps: the nine guarded blocks in source order. -/
def setProps (u : PropsUpdate) (s : RendererState) : RendererState :=
  setClipProp u.clip
    (setStyleProp u.style
      (setSelectColor u.selectColor
        (setHighlightColor u.highlightColor
          (setInteriorColor u.interiorColor
            (setInteriorColorFlag u.interiorColorFlag
              (setInteriorDarkening u.interiorDarkening
                (setPickingAlphaThreshold u.pickingAlphaThreshold
                  (setBackgroundColor u.backgroundColor s))))))))

/-- A full update carrying every field of a configuration. -/
def toFullUpdate (q : RendererProps) : PropsUpdate :=
  { backgroundColor := some q.backgroundColor
    pickingAlphaThreshold := some q.pickingAlphaThreshold
    interiorDarkening := some q.interiorDarkening
    interiorColorFlag := some q.interiorColorFlag
    interiorColor := some q.interiorColor
    highlightColor := some q.highlightColor
    selectColor := some q.selectColor
    style := some q.style
    clip := some q.clip }

/-- An update whose present fields all equal the stored configuration. -/
def NoChangeUpdate (u : PropsUpdate) (p : RendererProps) : Prop :=
  (u.backgroundColor = none ∨ u.backgroundColor = some p.backgroundColor) ∧
  (u.pickingAlphaThreshold = none ∨ u.pickingAlphaThreshold = some p.pickingAlphaThreshold) ∧
  (u.interiorDarkening = none ∨ u.interiorDarkening = some p.interiorDarkening) ∧
  (u.interiorColorFlag = none ∨ u.interiorColorFlag = some p.interiorColorFlag) ∧
  (u.interiorColor = none ∨ u.interiorColor = some p.interiorColor) ∧
  (u.highlightColor = none ∨ u.highlightColor = some p.highlightColor) ∧
  (u.selectColor = none ∨ u.selectColor = some p.selectColor) ∧
  (u.style = none ∨ u.style = some p.style) ∧
  (u.clip = none ∨ u.clip = some p.clip)

/-- Well-formedness maintained by the renderer between its construction and
every setProps call: the derived style values and the five material uniform
cells agree with the stored style configuration. -/
def WfRenderer (s : RendererState) : Prop :=
  s.style = getStyle s.p.style ∧
  s.uLightIntensity.value = s.style.lightIntensity ∧
  s.uAmbientIntensity.value = s.style.ambientIntensity ∧
  s.uMetalness.value = s.style.metalness ∧
  s.uRoughness.value = s.style.roughness ∧
  s.uReflectivity.value = s.style.reflectivity

/-! ## Concrete inputs used by counterexamples and witnesses -/

/-- Baseline value cells: fully opaque, no transparency, no optional
defines, no background-color override. -/
def rvBase : RenderableValues :=
  { alpha := 1, uAlpha := 1, transparencyAverage := 0
    dRenderMode := none, dPointFilledCircle := none, dXrayShaded := none
    hasBackgroundColor := false, dDoubleSided := none, hasReflection := false
    dFlipSided := none, dClipObjectCount := 0, dClipVariant := ClipVariantT.perInstance }

/-- Baseline state: visible, pickable, opaque, depth-writing, opting out of
clipping, with alpha factor 1. -/
def rsBase : RenderableState :=
  { visible := true, pickable := true, colorOnly := false, isOpaque := true
    writeDepth := true, noClip := true, alphaFactor := 1 }

def progs7 : ProgramIds := ⟨7, 7, 7, 7, 7, 7⟩

def progs1 : ProgramIds := ⟨1, 1, 1, 1, 1, 1⟩

def progs2 : ProgramIds := ⟨2, 2, 2, 2, 2, 2⟩

/-- A fully opaque renderable that declares a background-color override. -/
def rBg : Renderable :=
  { id := 0, state := rsBase
    values := { rvBase with hasBackgroundColor := true }, programs := progs7 }

/-- A fully opaque renderable with average transparency one half. -/
def rHalf : Renderable :=
  { id := 1, state := rsBase
    values := { rvBase with transparencyAverage := 1/2 }, programs := progs7 }

/-- A volumetric renderable with alpha 1. -/
def rVol : Renderable :=
  { id := 2, state := rsBase
    values := { rvBase with dRenderMode := some RenderMode.volume }, programs := progs7 }

/-- A plain fully opaque renderable. -/
def rPlain : Renderable :=
  { id := 3, state := rsBase, values := rvBase, programs := progs7 }

/-- Renderables on two distinct programs, for the upload-count claims. -/
def rProgA : Renderable :=
  { id := 10, state := rsBase, values := rvBase, programs := progs1 }

def rProgB : Renderable :=
  { id := 11, state := rsBase, values := rvBase, programs := progs2 }

/-- A transparent depth-writing renderable and a transparent non-writing
one, for the blended ordering claims. -/
def rTransW : Renderable :=
  { id := 20, state := { rsBase with isOpaque := false, writeDepth := true }
    values := { rvBase with alpha := 1/2 }, programs := progs7 }

def rTransN : Renderable :=
  { id := 21, state := { rsBase with isOpaque := false, writeDepth := false }
    values := { rvBase with alpha := 1/2 }, programs := progs7 }

/-- Number of adjacent program changes along a draw sequence. -/
def programChanges : List Nat → Nat
  | [] => 0
  | [_] => 0
  | a :: b :: rest => (if a ≠ b then 1 else 0) + programChanges (b :: rest)

/-- Global-uniform uploads performed by a run of draws, given the dirty flag
and the bound program entering the run: the first draw uploads when its
program differs from the bound one or the flag is set, and afterwards the
flag is clear and the bound program is the previous draw. -/
def uploadsFrom : Bool → Int → List Nat → Nat
  | _, _, [] => 0
  | needUpd, cur, p :: rest =>
    (if cur ≠ (p : Int) ∨ needUpd = true then 1 else 0) +
      uploadsFrom false (p : Int) rest

/-- Dimension consistency maintained by the DrawPass: every owned target and
texture matches the color target (the intermediate targets when present). -/
def ConsistentDims (s : DrawPassState) : Prop :=
  s.depthTarget = s.colorTarget ∧
  s.depthTexturePrimitives = s.colorTarget ∧
  s.depthTextureVolumes = s.colorTarget ∧
  (∀ d, s.depthTargetPrimitives = some d → d = s.colorTarget) ∧
  (∀ d, s.depthTargetVolumes = some d → d = s.colorTarget)

/-- A sample renderer configuration for the witnesses. -/
def propsEx : RendererProps :=
  { backgroundColor := 0
    pickingAlphaThreshold := 1/2
    interiorDarkening := 1/2
    interiorColorFlag := true
    interiorColor := 5000268
    highlightColor := 16751769
    selectColor := 3407897
    style := StyleProp.matte
    clip := { variant := ClipVariantT.perInstance, objects := [] } }

/-- A second configuration differing from propsEx in several fields. -/
def propsEx2 : RendererProps :=
  { backgroundColor := 255
    pickingAlphaThreshold := 1/4
    interiorDarkening := 3/4
    interiorColorFlag := false
    interiorColor := 0
    highlightColor := 0
    selectColor := 0
    style := StyleProp.custom ⟨1, 0, 0, 1/2, 1/2⟩
    clip := { variant := ClipVariantT.perPixel,
              objects := [⟨ClipTypeK.sphere, (1, 2, 3), ⟨(1, 0, 0), 90⟩, (1, 1, 1)⟩] } }

/-- A renderer state holding propsEx with its derived style, clip arrays and
uniform cells in sync. -/
def rendererStateEx : RendererState :=
  { p := propsEx
    style := getStyle StyleProp.matte
    clip := getClip propsEx.clip none
    uFogColor := { value := colorToVec3Normalized 0, version := 0 }
    uPickingAlphaThreshold := { value := 1/2, version := 0 }
    uInteriorDarkening := { value := 1/2, version := 0 }
    uInteriorColorFlag := { value := true, version := 0 }
    uInteriorColor := { value := colorToVec3Normalized 5000268, version := 0 }
    uHighlightColor := { value := colorToVec3Normalized 16751769, version := 0 }
    uSelectColor := { value := colorToVec3Normalized 3407897, version := 0 }
    uLightIntensity := { value := (getStyle StyleProp.matte).lightIntensity, version := 0 }
    uAmbientIntensity := { value := (getStyle StyleProp.matte).ambientIntensity, version := 0 }
    uMetalness := { value := (getStyle StyleProp.matte).metalness, version := 0 }
    uRoughness := { value := (getStyle StyleProp.matte).roughness, version := 0 }
    uReflectivity := { value := (getStyle StyleProp.matte).reflectivity, version := 0 }
    uClipObjectType := { value := (getClip propsEx.clip none).objects.type, version := 0 }
    uClipObjectPosition := { value := (getClip propsEx.clip none).objects.position, version := 0 }
    uClipObjectRotation := { value := (getClip propsEx.clip none).objects.rotationQ, version := 0 }
    uClipObjectScale := { value := (getClip propsEx.clip none).objects.scale, version := 0 } }

/-! ## Helper lemmas -/

/-- renderObject appends exactly one draw when the object is visible and not
skipped by the pick-variant rule, and none otherwise. -/
theorem renderObject_draws_length (f : Bool) (cc : Nat) (cv : ClipVariantT)
    (ctx : RendererCtx) (r : Renderable) (variant : Variant) :
    ((renderObject f cc cv ctx r variant).1.draws).length =
      ctx.draws.length +
        (if r.state.visible && (r.state.pickable || !isPickVariant variant) then 1 else 0) := by
  unfold renderObject
  cases hv : r.state.visible <;> cases hp : r.state.pickable <;>
    cases hk : isPickVariant variant <;> simp [hv, hp, hk]

/-- A pass loop over a single renderable appends exactly one draw when the
pass filter accepts it and renderObject does not skip it. -/
theorem renderLoop_singleton_length (f : Bool) (cc : Nat) (cv : ClipVariantT)
    (variant : Variant) (pred : Renderable → Bool) (ctx : RendererCtx) (r : Renderable) :
    ((renderLoop f cc cv variant pred ctx [r]).1.draws).length =
      ctx.draws.length +
        (if pred r && r.state.visible && (r.state.pickable || !isPickVariant variant) then 1 else 0) := by
  cases hpred : pred r <;>
    simp [renderLoop, hpred, renderObject_draws_length, Bool.and_assoc]

/-! ## Claim C1 -/

/-- C1 counterexample: an object with clamped alpha 1, zero average
transparency, non-volumetric, not a filled-circle point, not x-ray shaded,
but carrying a background-color override, satisfies BOTH the WBOIT-opaque
and the WBOIT-transparent classification predicates, so the two predicates
are not mutually exclusive and such an object is not "never
WBOIT-transparent". -/
theorem c1_counterexample :
    wboitOpaquePassPred rBg = true ∧ wboitTransparentPassPred rBg = true ∧
    getAlpha rBg = 1 ∧ rBg.values.transparencyAverage = 0 ∧
    rBg.values.dRenderMode ≠ some RenderMode.volume ∧
    rBg.values.dPointFilledCircle.getD false = false ∧
    rBg.values.dXrayShaded.getD false = false := by
  refine ⟨?_, ?_, ?_, ?_, ?_, ?_, ?_⟩ <;>
    simp +decide [wboitOpaquePassPred, wboitTransparentPassPred, getAlpha, clampQ,
      rBg, rvBase, rsBase]

/-- C1 (amended): for an object with clamped alpha 1, zero average
transparency, non-volumetric, not a filled-circle point, not x-ray shaded
AND without a background-color override, the WBOIT-opaque predicate holds
and the WBOIT-transparent predicate does not; the two predicates are
mutually exclusive only on objects without a background-color override and
with average transparency not strictly between 0 and 1. -/
theorem c1_amended (r : Renderable)
    (h1 : getAlpha r = 1)
    (h2 : r.values.transparencyAverage = 0)
    (h3 : r.values.dRenderMode ≠ some RenderMode.volume)
    (h4 : r.values.dPointFilledCircle.getD false = false)
    (h5 : r.values.dXrayShaded.getD false = false)
    (h6 : r.values.hasBackgroundColor = false) :
    wboitOpaquePassPred r = true ∧ wboitTransparentPassPred r = false := by
  constructor
  · simp [wboitOpaquePassPred, h1, h2, h3, h4, h5]
  · simp [wboitTransparentPassPred, h1, h2, h3, h4, h5, h6]

/-- C1 amended witness at a concrete plain opaque renderable. -/
theorem c1_amended_witness :
    (getAlpha rPlain = 1 ∧ rPlain.values.transparencyAverage = 0 ∧
     rPlain.values.dRenderMode ≠ some RenderMode.volume ∧
     rPlain.values.dPointFilledCircle.getD false = false ∧
     rPlain.values.dXrayShaded.getD false = false ∧
     rPlain.values.hasBackgroundColor = false) ∧
    (wboitOpaquePassPred rPlain = true ∧ wboitTransparentPassPred rPlain = false) := by
  have hAlpha : getAlpha rPlain = 1 := by
    simp [getAlpha, clampQ, rPlain, rvBase, rsBase]
  refine ⟨⟨hAlpha, ?_, ?_, ?_, ?_, ?_⟩, c1_amended rPlain hAlpha ?_ ?_ ?_ ?_ ?_⟩ <;>
    simp +decide [rPlain, rvBase]

/-! ## Claim C2 -/

/-- C2 counterexample: renderWboitOpaque draws a visible object whose
average transparency is one half, not zero — so the claimed condition
"average transparency contribution is 0" does not match the code, which
only excludes average transparency exactly 1. -/
theorem c2_counterexample :
    (renderWboitOpaque true 0 ClipVariantT.perInstance ctx0 [rHalf]).1.draws.length = 1 ∧
    rHalf.state.visible = true ∧
    rHalf.values.transparencyAverage ≠ 0 := by
  refine ⟨?_, rfl, by simp [rHalf, rvBase]⟩
  simp +decide [renderWboitOpaque, renderLoop, renderObject, updateInternal, ctx0, initialGL,
    wboitOpaquePassPred, getAlpha, clampQ, rHalf, rvBase, rsBase, resyncClip, applyDrawState,
    progs7, ProgramIds.get]

/-- The WBOIT-opaque loop condition spelled out as a proposition. -/
theorem wboitOpaquePassPred_iff (r : Renderable) :
    wboitOpaquePassPred r = true ↔
      (getAlpha r = 1 ∧ r.values.transparencyAverage ≠ 1 ∧
       r.values.dRenderMode ≠ some RenderMode.volume ∧
       r.values.dPointFilledCircle.getD false = false ∧
       r.values.dXrayShaded.getD false = false) := by
  unfold wboitOpaquePassPred
  simp only [Bool.and_eq_true, decide_eq_true_eq, Bool.not_eq_true']
  tauto

/-- The WBOIT-transparent loop condition spelled out as a proposition. -/
theorem wboitTransparentPassPred_iff (r : Renderable) :
    wboitTransparentPassPred r = true ↔
      (getAlpha r < 1 ∨ r.values.transparencyAverage > 0 ∨
       r.values.dRenderMode = some RenderMode.volume ∨
       r.values.dPointFilledCircle.getD false = true ∨
       r.values.hasBackgroundColor = true ∨
       r.values.dXrayShaded.getD false = true) := by
  unfold wboitTransparentPassPred
  simp only [Bool.or_eq_true, decide_eq_true_eq]
  tauto

/-- C2 (amended): renderWboitOpaque draws a visible object if and only if
its clamped alpha equals 1 AND its average transparency is NOT exactly 1
AND it is not volumetric AND it is not a filled circular point AND it does
not use x-ray shading. -/
theorem c2_amended (f : Bool) (cc : Nat) (cv : ClipVariantT) (r : Renderable)
    (hvis : r.state.visible = true) :
    (renderWboitOpaque f cc cv ctx0 [r]).1.draws ≠ [] ↔
      (getAlpha r = 1 ∧ r.values.transparencyAverage ≠ 1 ∧
       r.values.dRenderMode ≠ some RenderMode.volume ∧
       r.values.dPointFilledCircle.getD false = false ∧
       r.values.dXrayShaded.getD false = false) := by
  rw [← List.length_pos_iff_ne_nil]
  have hlen : (renderWboitOpaque f cc cv ctx0 [r]).1.draws.length =
      if wboitOpaquePassPred r && r.state.visible &&
          (r.state.pickable || !isPickVariant Variant.colorWboit) then 1 else 0 := by
    unfold renderWboitOpaque
    rw [renderLoop_singleton_length]
    simp [updateInternal, ctx0]
  rw [hlen, ← wboitOpaquePassPred_iff]
  simp only [hvis, isPickVariant, Bool.not_false, Bool.or_true, Bool.and_true]
  cases wboitOpaquePassPred r <;> simp

/-- C2 amended witness at the concrete renderable with average
transparency one half. -/
theorem c2_amended_witness :
    rHalf.state.visible = true ∧
    ((renderWboitOpaque true 0 ClipVariantT.perInstance ctx0 [rHalf]).1.draws ≠ [] ↔
      (getAlpha rHalf = 1 ∧ rHalf.values.transparencyAverage ≠ 1 ∧
       rHalf.values.dRenderMode ≠ some RenderMode.volume ∧
       rHalf.values.dPointFilledCircle.getD false = false ∧
       rHalf.values.dXrayShaded.getD false = false)) :=
  ⟨rfl, c2_amended true 0 ClipVariantT.perInstance rHalf rfl⟩

/-! ## Claim C3 -/

/-- C3: renderWboitTransparent draws a visible object if and only if its
clamped alpha is below 1, or its average transparency is positive, or it is
volumetric, or it is a filled circular point, or it declares a
background-color override, or it uses x-ray shading; in particular every
visible volumetric object is drawn regardless of alpha. -/
theorem c3_theorem (f : Bool) (cc : Nat) (cv : ClipVariantT) (r : Renderable)
    (hvis : r.state.visible = true) :
    ((renderWboitTransparent f cc cv ctx0 [r]).1.draws ≠ [] ↔
      (getAlpha r < 1 ∨ r.values.transparencyAverage > 0 ∨
       r.values.dRenderMode = some RenderMode.volume ∨
       r.values.dPointFilledCircle.getD false = true ∨
       r.values.hasBackgroundColor = true ∨
       r.values.dXrayShaded.getD false = true)) ∧
    (r.values.dRenderMode = some RenderMode.volume →
      (renderWboitTransparent f cc cv ctx0 [r]).1.draws ≠ []) := by
  have hlen : (renderWboitTransparent f cc cv ctx0 [r]).1.draws.length =
      if wboitTransparentPassPred r && r.state.visible &&
          (r.state.pickable || !isPickVariant Variant.colorWboit) then 1 else 0 := by
    unfold renderWboitTransparent
    rw [renderLoop_singleton_length]
    simp [updateInternal, ctx0]
  have hmain : (renderWboitTransparent f cc cv ctx0 [r]).1.draws ≠ [] ↔
      (getAlpha r < 1 ∨ r.values.transparencyAverage > 0 ∨
       r.values.dRenderMode = some RenderMode.volume ∨
       r.values.dPointFilledCircle.getD false = true ∨
       r.values.hasBackgroundColor = true ∨
       r.values.dXrayShaded.getD false = true) := by
    rw [← List.length_pos_iff_ne_nil, hlen, ← wboitTransparentPassPred_iff]
    simp only [hvis, isPickVariant, Bool.not_false, Bool.or_true, Bool.and_true]
    cases wboitTransparentPassPred r <;> simp
  exact ⟨hmain, fun hv => hmain.mpr (Or.inr (Or.inr (Or.inl hv)))⟩

/-- C3 witness at a concrete volumetric renderable with alpha 1. -/
theorem c3_witness :
    rVol.state.visible = true ∧
    (((renderWboitTransparent true 0 ClipVariantT.perInstance ctx0 [rVol]).1.draws ≠ [] ↔
      (getAlpha rVol < 1 ∨ rVol.values.transparencyAverage > 0 ∨
       rVol.values.dRenderMode = some RenderMode.volume ∨
       rVol.values.dPointFilledCircle.getD false = true ∨
       rVol.values.hasBackgroundColor = true ∨
       rVol.values.dXrayShaded.getD false = true)) ∧
     (rVol.values.dRenderMode = some RenderMode.volume →
       (renderWboitTransparent true 0 ClipVariantT.perInstance ctx0 [rVol]).1.draws ≠ [])) :=
  ⟨rfl, c3_theorem true 0 ClipVariantT.perInstance rVol rfl⟩

/-- resyncClip only touches value cells: the state record is unchanged. -/
theorem resyncClip_state (cc : Nat) (cv : ClipVariantT) (r : Renderable) :
    (resyncClip cc cv r).state = r.state := by
  unfold resyncClip
  split_ifs <;> (try rfl) <;> (dsimp only [] ; split_ifs <;> rfl)

/-- renderObject returns the renderable unchanged or clip-resynced; either
way its state record is unchanged. -/
theorem renderObject_snd_state (f : Bool) (cc : Nat) (cv : ClipVariantT)
    (ctx : RendererCtx) (r : Renderable) (variant : Variant) :
    ((renderObject f cc cv ctx r variant).2).state = r.state := by
  unfold renderObject
  split
  · rfl
  · exact resyncClip_state cc cv r

/-- A singleton pass loop returns a singleton renderable list with the same
state record. -/
theorem renderLoop_singleton_snd (f : Bool) (cc : Nat) (cv : ClipVariantT)
    (variant : Variant) (pred : Renderable → Bool) (ctx : RendererCtx) (r : Renderable) :
    ∃ r1, (renderLoop f cc cv variant pred ctx [r]).2 = [r1] ∧ r1.state = r.state := by
  cases hpred : pred r
  · exact ⟨r, by simp [renderLoop, hpred], rfl⟩
  · exact ⟨(renderObject f cc cv ctx r variant).2, by simp [renderLoop, hpred],
      renderObject_snd_state f cc cv ctx r variant⟩

/-- Draw count of renderBlendedTransparent over a single renderable: one
draw from the depth-writing sub-pass when it is non-opaque, visible and
depth-writing, plus one from the non-writing sub-pass when it is non-opaque,
visible and not depth-writing. -/
theorem renderBlendedTransparent_singleton_length (tb f : Bool) (cc : Nat)
    (cv : ClipVariantT) (ctx : RendererCtx) (r : Renderable) :
    ((renderBlendedTransparent tb f cc cv ctx [r]).1.draws).length =
      ctx.draws.length +
        (if (!r.state.isOpaque && r.state.writeDepth) && r.state.visible then 1 else 0) +
        (if (!r.state.isOpaque && !r.state.writeDepth) && r.state.visible then 1 else 0) := by
  cases ho : r.state.isOpaque <;> cases hw : r.state.writeDepth <;>
    cases hv : r.state.visible <;>
    simp [renderBlendedTransparent, renderLoop, renderObject_draws_length,
      renderObject_snd_state, resyncClip_state, updateInternal, isPickVariant, ho, hw, hv]

/-- Draw count of renderBlendedOpaque over a single renderable. -/
theorem renderBlendedOpaque_singleton_length (f : Bool) (cc : Nat) (cv : ClipVariantT)
    (ctx : RendererCtx) (r : Renderable) :
    ((renderBlendedOpaque f cc cv ctx [r]).1.draws).length =
      ctx.draws.length + (if r.state.isOpaque && r.state.visible then 1 else 0) := by
  unfold renderBlendedOpaque
  rw [renderLoop_singleton_length]
  simp [updateInternal, isPickVariant]

/-- renderBlendedOpaque over a single renderable returns a singleton list
with the same state record. -/
theorem renderBlendedOpaque_singleton_snd (f : Bool) (cc : Nat) (cv : ClipVariantT)
    (ctx : RendererCtx) (r : Renderable) :
    ∃ r1, (renderBlendedOpaque f cc cv ctx [r]).2 = [r1] ∧ r1.state = r.state := by
  unfold renderBlendedOpaque
  exact renderLoop_singleton_snd f cc cv Variant.colorBlended _ _ r

/-- Draw count of renderBlended over a single renderable: at most one of
the three phase contributions applies. -/
theorem renderBlended_singleton_length (tb f : Bool) (cc : Nat) (cv : ClipVariantT)
    (ctx : RendererCtx) (r : Renderable) :
    ((renderBlended tb f cc cv ctx [r]).1.draws).length =
      ctx.draws.length + (if r.state.isOpaque && r.state.visible then 1 else 0) +
        (if (!r.state.isOpaque && r.state.writeDepth) && r.state.visible then 1 else 0) +
        (if (!r.state.isOpaque && !r.state.writeDepth) && r.state.visible then 1 else 0) := by
  unfold renderBlended
  dsimp only
  obtain ⟨r1, h2, hst⟩ := renderBlendedOpaque_singleton_snd f cc cv ctx r
  rw [h2, renderBlendedTransparent_singleton_length, hst,
    renderBlendedOpaque_singleton_length]

/-! ## Claim C9 -/

/-- C9: in the simple blended path the opaque and transparent phases
partition the drawables: renderBlendedOpaque draws a renderable only when
its opaque flag is true, renderBlendedTransparent only when it is false, the
two phases never both draw it, and renderBlended (opaque then transparent)
issues at most one draw per renderable. -/
theorem c9_theorem (tb f : Bool) (cc : Nat) (cv : ClipVariantT) (r : Renderable) :
    ((renderBlendedOpaque f cc cv ctx0 [r]).1.draws ≠ [] → r.state.isOpaque = true) ∧
    ((renderBlendedTransparent tb f cc cv ctx0 [r]).1.draws ≠ [] → r.state.isOpaque = false) ∧
    ¬((renderBlendedOpaque f cc cv ctx0 [r]).1.draws ≠ [] ∧
      (renderBlendedTransparent tb f cc cv ctx0 [r]).1.draws ≠ []) ∧
    (renderBlended tb f cc cv ctx0 [r]).1.draws.length ≤ 1 := by
  have hO := renderBlendedOpaque_singleton_length f cc cv ctx0 r
  have hT := renderBlendedTransparent_singleton_length tb f cc cv ctx0 r
  have hB := renderBlended_singleton_length tb f cc cv ctx0 r
  simp only [ne_eq, ← List.length_eq_zero]
  rw [hO, hT, hB]
  cases ho : r.state.isOpaque <;> cases hw : r.state.writeDepth <;>
    cases hv : r.state.visible <;> simp [ctx0]

/-- C9 witness: at a concrete visible opaque renderable the opaque phase
draws and the partition facts hold. -/
theorem c9_witness :
    (((renderBlendedOpaque true 0 ClipVariantT.perInstance ctx0 [rPlain]).1.draws ≠ [] →
        rPlain.state.isOpaque = true) ∧
     ((renderBlendedTransparent false true 0 ClipVariantT.perInstance ctx0 [rPlain]).1.draws ≠ [] →
        rPlain.state.isOpaque = false) ∧
     ¬((renderBlendedOpaque true 0 ClipVariantT.perInstance ctx0 [rPlain]).1.draws ≠ [] ∧
       (renderBlendedTransparent false true 0 ClipVariantT.perInstance ctx0 [rPlain]).1.draws ≠ []) ∧
     (renderBlended false true 0 ClipVariantT.perInstance ctx0 [rPlain]).1.draws.length ≤ 1) ∧
    (renderBlendedOpaque true 0 ClipVariantT.perInstance ctx0 [rPlain]).1.draws ≠ [] := by
  refine ⟨c9_theorem false true 0 ClipVariantT.perInstance rPlain, ?_⟩
  have h := renderBlendedOpaque_singleton_length true 0 ClipVariantT.perInstance ctx0 rPlain
  simp only [ne_eq, ← List.length_eq_zero, h]
  simp [ctx0, rPlain, rsBase]

/-! ## Claim C4 -/

/-- applyDrawState never touches the tracked program id. -/
theorem applyDrawState_currentProgramId (f : Bool) (v : Variant) (r : Renderable)
    (gl : GLState) :
    (applyDrawState f v r gl).currentProgramId = gl.currentProgramId := by
  unfold applyDrawState
  cases hm : r.values.dRenderMode
  · dsimp only
    cases hd : r.values.dDoubleSided <;> cases hf : r.values.dFlipSided <;>
      simp [hd, hf] <;> split_ifs <;> rfl
  · dsimp only
    split_ifs <;> rfl

/-- resyncClip only touches the clip define cells: program handles are
unchanged. -/
theorem resyncClip_programs (cc : Nat) (cv : ClipVariantT) (r : Renderable) :
    (resyncClip cc cv r).programs = r.programs := by
  unfold resyncClip
  split_ifs <;> (try rfl) <;> (dsimp only [] ; split_ifs <;> rfl)

/-- Effect of a drawn renderObject call on the upload count, the tracked
program id and the dirty flag. -/
theorem renderObject_prog (f : Bool) (cc : Nat) (cv : ClipVariantT)
    (ctx : RendererCtx) (r : Renderable) (variant : Variant)
    (hvis : r.state.visible = true) (hnp : isPickVariant variant = false) :
    (renderObject f cc cv ctx r variant).1.uploads =
      ctx.uploads +
        (if ctx.gl.currentProgramId ≠ (r.programs.get variant : Int) ∨
            ctx.globalUniformsNeedUpdate = true then 1 else 0) ∧
    (renderObject f cc cv ctx r variant).1.gl.currentProgramId =
      ((r.programs.get variant : Nat) : Int) ∧
    (renderObject f cc cv ctx r variant).1.globalUniformsNeedUpdate = false := by
  unfold renderObject
  simp only [hvis, hnp, Bool.not_true, Bool.false_or, Bool.and_false, if_neg,
    Bool.false_eq_true, not_false_eq_true, ite_false]
  rw [resyncClip_programs]
  refine ⟨?_, ?_, ?_⟩
  · by_cases hch : ctx.gl.currentProgramId = ((r.programs.get variant : Nat) : Int) <;>
      simp [hch, applyDrawState_currentProgramId] <;> split_ifs <;> omega
  · by_cases hch : ctx.gl.currentProgramId = ((r.programs.get variant : Nat) : Int) <;>
      simp [hch, applyDrawState_currentProgramId]
  · trivial

/-- Upload count of a draw-everything loop over visible renderables under a
non-pick variant. -/
theorem renderLoop_uploads (f : Bool) (cc : Nat) (cv : ClipVariantT)
    (variant : Variant) (hnp : isPickVariant variant = false) :
    ∀ (g : List Renderable) (ctx : RendererCtx),
      (∀ r ∈ g, r.state.visible = true) →
      (renderLoop f cc cv variant (fun _ => true) ctx g).1.uploads =
        ctx.uploads + uploadsFrom ctx.globalUniformsNeedUpdate ctx.gl.currentProgramId
          (g.map (fun r => r.programs.get variant)) := by
  intro g
  induction g with
  | nil => intro ctx _; simp [renderLoop, uploadsFrom]
  | cons r rest ih =>
    intro ctx hvis
    obtain ⟨hu, hp, hn⟩ := renderObject_prog f cc cv ctx r variant
      (hvis r (List.mem_cons_self r rest)) hnp
    have hrest : ∀ x ∈ rest, x.state.visible = true :=
      fun x hx => hvis x (List.mem_cons_of_mem r hx)
    simp only [renderLoop, if_pos, List.map_cons, uploadsFrom]
    rw [ih _ hrest, hu, hp, hn]
    try rw [Nat.add_assoc]

/-- When the dirty flag enters a nonempty run set (as updateInternal leaves
it), the upload count is one plus the number of adjacent program changes. -/
theorem uploadsFrom_true (p : Nat) (rest : List Nat) (cur : Int) :
    uploadsFrom true cur (p :: rest) = 1 + programChanges (p :: rest) := by
  have hfalse : ∀ (rest : List Nat) (q : Nat),
      uploadsFrom false (q : Int) rest = programChanges (q :: rest) := by
    intro rest
    induction rest with
    | nil => intro q; simp [uploadsFrom, programChanges]
    | cons b t ih =>
      intro q
      simp only [uploadsFrom, programChanges, ih b]
      congr 1
      simp [Int.natCast_inj]
  simp only [uploadsFrom, or_true, if_pos]
  rw [hfalse rest p]

/-- Uploads never exceed the number of draws. -/
theorem uploadsFrom_le (ps : List Nat) : ∀ (b : Bool) (cur : Int),
    uploadsFrom b cur ps ≤ ps.length := by
  induction ps with
  | nil => intro b cur; simp [uploadsFrom]
  | cons p rest ih =>
    intro b cur
    simp only [uploadsFrom, List.length_cons]
    have := ih false (p : Int)
    split_ifs <;> omega

/-- C4 counterexample: a pass over three visible objects whose programs
alternate between two distinct ids performs three global-uniform uploads,
strictly more than the number of distinct bound programs (two); the claimed
bound of at most one upload per distinct program fails. -/
theorem c4_counterexample :
    (renderDepth true 0 ClipVariantT.perInstance ctx0 [rProgA, rProgB, rProgA]).1.uploads = 3 ∧
    (([rProgA, rProgB, rProgA].map
        (fun r => r.programs.get Variant.depthVariant)).dedup).length = 2 := by
  constructor
  · decide
  · decide

/-- C4 (amended): within one pass the full global-uniform set is uploaded
exactly at draws whose bound program differs from the previous draw (the
first draw of a pass always uploads, since updateInternal marks the uniforms
dirty): over N visible objects the upload count is one plus the number of
adjacent program changes, hence at most N, and exactly 1 — not N — when all
objects share one program; it is not bounded by the number of distinct
programs for arbitrary draw orders. -/
theorem c4_amended (f : Bool) (cc : Nat) (cv : ClipVariantT) (g : List Renderable)
    (hvis : ∀ r ∈ g, r.state.visible = true) :
    ((renderDepth f cc cv ctx0 g).1.uploads =
      match g.map (fun r => r.programs.get Variant.depthVariant) with
      | [] => 0
      | p :: rest => 1 + programChanges (p :: rest)) ∧
    (renderDepth f cc cv ctx0 g).1.uploads ≤ g.length := by
  have hrun : (renderDepth f cc cv ctx0 g).1.uploads =
      uploadsFrom true (-1) (g.map (fun r => r.programs.get Variant.depthVariant)) := by
    unfold renderDepth
    rw [renderLoop_uploads f cc cv Variant.depthVariant rfl g _ hvis]
    simp [updateInternal, ctx0, initialGL]
  constructor
  · rw [hrun]
    cases hg : g.map (fun r => r.programs.get Variant.depthVariant) with
    | nil => simp [uploadsFrom]
    | cons p rest => exact uploadsFrom_true p rest (-1)
  · rw [hrun]
    have := uploadsFrom_le (g.map (fun r => r.programs.get Variant.depthVariant)) true (-1)
    simpa using this

/-- C4 amended witness: three visible objects on one shared program incur a
single upload. -/
theorem c4_amended_witness :
    (∀ r ∈ [rPlain, rPlain, rPlain], r.state.visible = true) ∧
    ((renderDepth true 0 ClipVariantT.perInstance ctx0 [rPlain, rPlain, rPlain]).1.uploads =
      match [rPlain, rPlain, rPlain].map (fun r => r.programs.get Variant.depthVariant) with
      | [] => 0
      | p :: rest => 1 + programChanges (p :: rest)) ∧
    (renderDepth true 0 ClipVariantT.perInstance ctx0 [rPlain, rPlain, rPlain]).1.uploads ≤
      [rPlain, rPlain, rPlain].length := by
  refine ⟨?_, c4_amended true 0 ClipVariantT.perInstance [rPlain, rPlain, rPlain] ?_⟩ <;> decide

/-! ## Claim C5 -/

/-- resyncClip only touches the clip define cells: dRenderMode is
unchanged. -/
theorem resyncClip_dRenderMode (cc : Nat) (cv : ClipVariantT) (r : Renderable) :
    (resyncClip cc cv r).values.dRenderMode = r.values.dRenderMode := by
  unfold resyncClip
  split_ifs <;> (try rfl) <;> (dsimp only [] ; split_ifs <;> rfl)

/-- A non-volumetric renderable never changes the depth mask through the
GL rule table. -/
theorem applyDrawState_depthMask_of_none (f : Bool) (v : Variant) (r : Renderable)
    (gl : GLState) (h : r.values.dRenderMode = none) :
    (applyDrawState f v r gl).depthMask = gl.depthMask := by
  unfold applyDrawState
  rw [h]
  dsimp only
  cases hd : r.values.dDoubleSided <;> cases hf : r.values.dFlipSided <;>
    simp [hd, hf] <;> split_ifs <;> rfl

/-- An invisible renderable is skipped entirely by renderObject under any
color or depth variant. -/
theorem renderObject_invisible (f : Bool) (cc : Nat) (cv : ClipVariantT)
    (ctx : RendererCtx) (r : Renderable) (variant : Variant)
    (hv : r.state.visible = false) :
    renderObject f cc cv ctx r variant = (ctx, r) := by
  unfold renderObject
  simp [hv]

/-- A visible non-volumetric renderable drawn in the colorBlended variant
appends one draw carrying the ambient depth mask, leaves the depth mask
unchanged, and is returned clip-resynced. -/
theorem renderObject_none_drawn (f : Bool) (cc : Nat) (cv : ClipVariantT)
    (ctx : RendererCtx) (r : Renderable)
    (h : r.values.dRenderMode = none) (hv : r.state.visible = true) :
    (renderObject f cc cv ctx r Variant.colorBlended).1.draws =
      ctx.draws ++ [{ r := resyncClip cc cv r, variant := Variant.colorBlended,
                      depthMask := ctx.gl.depthMask }] ∧
    (renderObject f cc cv ctx r Variant.colorBlended).1.gl.depthMask = ctx.gl.depthMask ∧
    (renderObject f cc cv ctx r Variant.colorBlended).2 = resyncClip cc cv r := by
  have h2 : (resyncClip cc cv r).values.dRenderMode = none := by
    rw [resyncClip_dRenderMode]; exact h
  unfold renderObject
  simp only [hv, isPickVariant, Bool.not_true, Bool.and_false, Bool.false_or,
    Bool.false_eq_true, not_false_eq_true, ite_false, if_neg]
  refine ⟨?_, ?_, ?_⟩
  · rw [applyDrawState_depthMask_of_none _ _ _ _ h2]
    split_ifs <;> rfl
  · rw [applyDrawState_depthMask_of_none _ _ _ _ h2]
    split_ifs <;> rfl
  · trivial

/-- Trace of a colorBlended pass loop over a group with no volumetric
renderables: the draws of the accepted visible renderables are appended in
order, all carrying the ambient depth mask. -/
theorem renderLoop_none_draws (f : Bool) (cc : Nat) (cv : ClipVariantT)
    (pred : Renderable → Bool) :
    ∀ (g : List Renderable), (∀ r ∈ g, r.values.dRenderMode = none) →
    ∀ ctx : RendererCtx,
      (renderLoop f cc cv Variant.colorBlended pred ctx g).1.draws =
        ctx.draws ++ (g.filter (fun r => pred r && r.state.visible)).map
          (fun r => { r := resyncClip cc cv r, variant := Variant.colorBlended,
                      depthMask := ctx.gl.depthMask }) ∧
      (renderLoop f cc cv Variant.colorBlended pred ctx g).1.gl.depthMask =
        ctx.gl.depthMask ∧
      (renderLoop f cc cv Variant.colorBlended pred ctx g).2 =
        g.map (fun r => if pred r && r.state.visible then resyncClip cc cv r else r) := by
  intro g
  induction g with
  | nil => intro _ ctx; simp [renderLoop]
  | cons r rest ih =>
    intro hm ctx
    have hr : r.values.dRenderMode = none := hm r (List.mem_cons_self r rest)
    have hrest : ∀ x ∈ rest, x.values.dRenderMode = none :=
      fun x hx => hm x (List.mem_cons_of_mem r hx)
    cases hpred : pred r
    · obtain ⟨ih1, ih2, ih3⟩ := ih hrest ctx
      simp [renderLoop, hpred, ih1, ih2, ih3]
    · cases hv : r.state.visible
      · have hro := renderObject_invisible f cc cv ctx r Variant.colorBlended hv
        obtain ⟨ih1, ih2, ih3⟩ := ih hrest ctx
        simp [renderLoop, hpred, hro, ih1, ih2, ih3, hv]
      · obtain ⟨ho1, ho2, ho3⟩ := renderObject_none_drawn f cc cv ctx r hr hv
        obtain ⟨ih1, ih2, ih3⟩ := ih hrest (renderObject f cc cv ctx r Variant.colorBlended).1
        simp [renderLoop, hpred, hv, ih1, ih2, ih3, ho1, ho2, ho3]

/-- Draws component of renderLoop_none_draws. -/
theorem renderLoop_none_draws1 (f : Bool) (cc : Nat) (cv : ClipVariantT)
    (pred : Renderable → Bool) (g : List Renderable)
    (hm : ∀ r ∈ g, r.values.dRenderMode = none) (ctx : RendererCtx) :
    (renderLoop f cc cv Variant.colorBlended pred ctx g).1.draws =
      ctx.draws ++ (g.filter (fun r => pred r && r.state.visible)).map
        (fun r => { r := resyncClip cc cv r, variant := Variant.colorBlended,
                    depthMask := ctx.gl.depthMask }) :=
  (renderLoop_none_draws f cc cv pred g hm ctx).1

/-- Depth-mask component of renderLoop_none_draws. -/
theorem renderLoop_none_mask (f : Bool) (cc : Nat) (cv : ClipVariantT)
    (pred : Renderable → Bool) (g : List Renderable)
    (hm : ∀ r ∈ g, r.values.dRenderMode = none) (ctx : RendererCtx) :
    (renderLoop f cc cv Variant.colorBlended pred ctx g).1.gl.depthMask =
      ctx.gl.depthMask :=
  (renderLoop_none_draws f cc cv pred g hm ctx).2.1

/-- Returned-list component of renderLoop_none_draws. -/
theorem renderLoop_none_snd (f : Bool) (cc : Nat) (cv : ClipVariantT)
    (pred : Renderable → Bool) (g : List Renderable)
    (hm : ∀ r ∈ g, r.values.dRenderMode = none) (ctx : RendererCtx) :
    (renderLoop f cc cv Variant.colorBlended pred ctx g).2 =
      g.map (fun r => if pred r && r.state.visible then resyncClip cc cv r else r) :=
  (renderLoop_none_draws f cc cv pred g hm ctx).2.2

/-- Every element of a list fixed by a function maps to itself. -/
theorem map_eq_self_of_mem {α : Type} (l : List α) (fn : α → α)
    (h : ∀ a ∈ l, fn a = a) : l.map fn = l := by
  conv_rhs => rw [← List.map_id l]
  exact List.map_congr_left h

/-- C5: over a group with no volumetric renderables whose clip defines are
already in sync, renderBlendedTransparent appends first the draws of every
visible non-opaque depth-writing renderable, each submitted with depth mask
true, and then the draws of every visible non-opaque non-depth-writing
renderable, each submitted with depth mask false — so every depth-writing
transparent drawable is drawn strictly before every non-writing one, in two
sub-passes with the depth mask toggled from true to false between them. -/
theorem c5_theorem (tb f : Bool) (cc : Nat) (cv : ClipVariantT) (ctx : RendererCtx)
    (g : List Renderable)
    (hm : ∀ r ∈ g, r.values.dRenderMode = none)
    (hclip : ∀ r ∈ g, resyncClip cc cv r = r) :
    (renderBlendedTransparent tb f cc cv ctx g).1.draws =
      ctx.draws
      ++ (g.filter (fun r => !r.state.isOpaque && r.state.writeDepth && r.state.visible)).map
          (fun r => { r := r, variant := Variant.colorBlended, depthMask := true })
      ++ (g.filter (fun r => !r.state.isOpaque && !r.state.writeDepth && r.state.visible)).map
          (fun r => { r := r, variant := Variant.colorBlended, depthMask := false }) := by
  unfold renderBlendedTransparent
  dsimp only [updateInternal]
  rw [renderLoop_none_snd f cc cv (fun r => !r.state.isOpaque && r.state.writeDepth) g hm]
  rw [map_eq_self_of_mem g _ (fun a ha => by rw [hclip a ha, ite_self])]
  rw [renderLoop_none_draws1 f cc cv (fun r => !r.state.isOpaque && !r.state.writeDepth) g hm]
  rw [renderLoop_none_draws1 f cc cv (fun r => !r.state.isOpaque && r.state.writeDepth) g hm]
  dsimp only
  congr 1
  · congr 1
    apply List.map_congr_left
    intro a ha
    rw [hclip a (List.mem_filter.mp ha).1]
  · apply List.map_congr_left
    intro a ha
    rw [hclip a (List.mem_filter.mp ha).1]

/-- C5 witness: a transparent depth-writing renderable and a transparent
non-writing one, in that order, with the resulting two-sub-pass trace. -/
theorem c5_witness :
    (∀ r ∈ [rTransW, rTransN], r.values.dRenderMode = none) ∧
    (∀ r ∈ [rTransW, rTransN], resyncClip 0 ClipVariantT.perInstance r = r) ∧
    (renderBlendedTransparent false true 0 ClipVariantT.perInstance ctx0
        [rTransW, rTransN]).1.draws =
      ctx0.draws
      ++ ([rTransW, rTransN].filter
            (fun r => !r.state.isOpaque && r.state.writeDepth && r.state.visible)).map
          (fun r => { r := r, variant := Variant.colorBlended, depthMask := true })
      ++ ([rTransW, rTransN].filter
            (fun r => !r.state.isOpaque && !r.state.writeDepth && r.state.visible)).map
          (fun r => { r := r, variant := Variant.colorBlended, depthMask := false }) := by
  have h1 : ∀ r ∈ [rTransW, rTransN], r.values.dRenderMode = none := by
    intro r hr
    fin_cases hr <;> rfl
  have h2 : ∀ r ∈ [rTransW, rTransN], resyncClip 0 ClipVariantT.perInstance r = r := by
    intro r hr
    fin_cases hr <;> rfl
  exact ⟨h1, h2,
    c5_theorem false true 0 ClipVariantT.perInstance ctx0 [rTransW, rTransN] h1 h2⟩

/-! ## Claim C6 -/

/-- A freshly constructed DrawPass is dimension consistent. -/
theorem create_consistent (width height : Nat) (depthTextureExt enableWboit wboitCapable : Bool) :
    ConsistentDims (DrawPassState.create width height depthTextureExt enableWboit wboitCapable) := by
  unfold ConsistentDims DrawPassState.create
  cases depthTextureExt <;> simp

/-- setSize with a size differing from the color target resizes every owned
target and texture to the requested size. -/
theorem setSize_changed (s : DrawPassState) (w h : Nat)
    (hne : w ≠ s.colorTarget.width ∨ h ≠ s.colorTarget.height) :
    (s.setSize w h).colorTarget = ⟨w, h⟩ ∧
    (s.setSize w h).depthTarget = ⟨w, h⟩ ∧
    (s.setSize w h).depthTexturePrimitives = ⟨w, h⟩ ∧
    (s.setSize w h).depthTextureVolumes = ⟨w, h⟩ ∧
    (∀ d, (s.setSize w h).depthTargetPrimitives = some d → d = ⟨w, h⟩) ∧
    (∀ d, (s.setSize w h).depthTargetVolumes = some d → d = ⟨w, h⟩) := by
  unfold DrawPassState.setSize
  rw [if_pos hne]
  cases hp : s.depthTargetPrimitives <;> cases hv : s.depthTargetVolumes <;>
    simp [hp, hv] <;>
    (rcases hw : s.wboit with _ | wb) <;> simp [hw] <;> split_ifs <;> simp

/-- setSize with the current color target size is the identity. -/
theorem setSize_noop (s : DrawPassState) (w h : Nat)
    (hw : s.colorTarget.width = w) (hh : s.colorTarget.height = h) :
    s.setSize w h = s := by
  unfold DrawPassState.setSize
  rw [if_neg]
  push_neg
  exact ⟨hw.symm, hh.symm⟩

/-- C6: for a dimension-consistent DrawPass, after setSize(w, h) the color
target, the depth target, both depth textures, and (when present) both
packed-depth intermediate targets all report exactly (w, h); when (w, h)
already equals the color target size the call performs no state change at
all, and a second identical call is always a no-op. -/
theorem c6_theorem (s : DrawPassState) (w h : Nat) (hc : ConsistentDims s) :
    ((s.setSize w h).colorTarget = ⟨w, h⟩ ∧
     (s.setSize w h).depthTarget = ⟨w, h⟩ ∧
     (s.setSize w h).depthTexturePrimitives = ⟨w, h⟩ ∧
     (s.setSize w h).depthTextureVolumes = ⟨w, h⟩ ∧
     (∀ d, (s.setSize w h).depthTargetPrimitives = some d → d = ⟨w, h⟩) ∧
     (∀ d, (s.setSize w h).depthTargetVolumes = some d → d = ⟨w, h⟩)) ∧
    (s.colorTarget = ⟨w, h⟩ → s.setSize w h = s) ∧
    (s.setSize w h).setSize w h = s.setSize w h := by
  obtain ⟨h1, h2, h3, h4, h5⟩ := hc
  by_cases hne : w ≠ s.colorTarget.width ∨ h ≠ s.colorTarget.height
  · obtain ⟨g1, g2, g3, g4, g5, g6⟩ := setSize_changed s w h hne
    refine ⟨⟨g1, g2, g3, g4, g5, g6⟩, ?_, ?_⟩
    · intro hcol
      exfalso
      rcases hne with hx | hx <;> simp [hcol] at hx
    · exact setSize_noop _ w h (by rw [g1]) (by rw [g1])
  · push_neg at hne
    obtain ⟨hww, hhh⟩ := hne
    have hnoop : s.setSize w h = s := setSize_noop s w h hww.symm hhh.symm
    have hcol : s.colorTarget = ⟨w, h⟩ := by rw [hww, hhh]
    refine ⟨⟨?_, ?_, ?_, ?_, ?_, ?_⟩, fun _ => hnoop, ?_⟩ <;>
      simp only [hnoop]
    · exact hcol
    · exact h1.trans hcol
    · exact h2.trans hcol
    · exact h3.trans hcol
    · exact fun d hd => (h4 d hd).trans hcol
    · exact fun d hd => (h5 d hd).trans hcol

/-- C6 witness: a freshly constructed 4 by 3 packed-depth pass resized to
2 by 5. -/
theorem c6_witness :
    ConsistentDims (DrawPassState.create 4 3 false true true) ∧
    ((((DrawPassState.create 4 3 false true true).setSize 2 5).colorTarget = ⟨2, 5⟩ ∧
      ((DrawPassState.create 4 3 false true true).setSize 2 5).depthTarget = ⟨2, 5⟩ ∧
      ((DrawPassState.create 4 3 false true true).setSize 2 5).depthTexturePrimitives = ⟨2, 5⟩ ∧
      ((DrawPassState.create 4 3 false true true).setSize 2 5).depthTextureVolumes = ⟨2, 5⟩ ∧
      (∀ d, ((DrawPassState.create 4 3 false true true).setSize 2 5).depthTargetPrimitives = some d →
        d = ⟨2, 5⟩) ∧
      (∀ d, ((DrawPassState.create 4 3 false true true).setSize 2 5).depthTargetVolumes = some d →
        d = ⟨2, 5⟩)) ∧
     ((DrawPassState.create 4 3 false true true).colorTarget = ⟨2, 5⟩ →
       (DrawPassState.create 4 3 false true true).setSize 2 5 = DrawPassState.create 4 3 false true true) ∧
     (((DrawPassState.create 4 3 false true true).setSize 2 5).setSize 2 5 =
       (DrawPassState.create 4 3 false true true).setSize 2 5)) :=
  ⟨create_consistent 4 3 false true true,
   c6_theorem (DrawPassState.create 4 3 false true true) 2 5 (create_consistent 4 3 false true true)⟩

/-! ## Claim C8 -/

/-- C8: the WBOIT render path throws exactly when the WBOIT sub-pass is
absent or not enabled, and the public render entry never reaches that error
because the single-eye sequence dispatches to the WBOIT path only when
wboitEnabled is true: renderSingle and renderRun always succeed. -/
theorem c8_theorem (s : DrawPassState) (hf : HelperFlags) (cam : CameraKind)
    (tdb : Bool) :
    (exceptOk (renderWboitRun s tdb) = s.wboitEnabled) ∧
    ((renderWboitRun s tdb = Except.error "expected wboit to be enabled") ↔
      (s.wboit = none ∨ ∃ wb, s.wboit = some wb ∧ wb.enabled = false)) ∧
    exceptOk (renderSingle s hf tdb) = true ∧
    exceptOk (renderRun s hf cam tdb) = true := by
  have hok : ∀ b : Bool, s.wboitEnabled = b →
      (exceptOk (renderWboitRun s tdb) = s.wboitEnabled ∧
       exceptOk (renderSingle s hf tdb) = true) := by
    intro b hb
    cases b <;> simp [renderWboitRun, renderSingle, exceptOk, hb]
  obtain ⟨h1, h3⟩ := hok s.wboitEnabled rfl
  refine ⟨h1, ?_, h3, ?_⟩
  · unfold renderWboitRun
    rcases hw : s.wboit with _ | wb
    · simp [DrawPassState.wboitEnabled, hw]
    · cases he : wb.enabled <;> simp [DrawPassState.wboitEnabled, hw, he]
  · cases cam
    · exact h3
    · rcases hs : renderSingle s hf tdb with evts | e
      · simp [renderRun, exceptOk, hs] at h3
      · simp [renderRun, exceptOk, hs]

/-! ## Claim C10 -/

/-- C10: when the simple blended path renders directly to the drawing
buffer, its trace is exactly unbind, clear, blended-opaque primitives,
blended-transparent primitives: the volume group is never rendered, no
depth-only pass runs, and the depth merge is not executed. -/
theorem c10_theorem (s : DrawPassState) :
    renderBlendedTrace s true =
      [PassEvent.unbindFramebuffer, PassEvent.clearEvt true,
       PassEvent.blendedOpaqueEvt GroupKind.primitives,
       PassEvent.blendedTransparentEvt GroupKind.primitives] ∧
    (∀ gk, PassEvent.blendedVolumeEvt gk ∉ renderBlendedTrace s true) ∧
    (∀ gk, PassEvent.depthEvt gk ∉ renderBlendedTrace s true) ∧
    PassEvent.depthMergeEvt ∉ renderBlendedTrace s true := by
  have htr : renderBlendedTrace s true =
      [PassEvent.unbindFramebuffer, PassEvent.clearEvt true,
       PassEvent.blendedOpaqueEvt GroupKind.primitives,
       PassEvent.blendedTransparentEvt GroupKind.primitives] := by
    simp [renderBlendedTrace]
  refine ⟨htr, ?_, ?_, ?_⟩ <;> rw [htr] <;> intros <;> simp

/-! ## Claim C7 -/

/-- Configuration projection of the backgroundColor block: the field is set to the
present value, everything else in the configuration is untouched. -/
theorem setBackgroundColor_p (v) (s : RendererState) :
    (setBackgroundColor v s).p = { s.p with backgroundColor := v.getD s.p.backgroundColor } := by
  cases v with
  | none => rfl
  | some c =>
    dsimp only [setBackgroundColor]
    split_ifs with hne
    · rfl
    · have hc := not_not.mp hne
      subst hc
      rfl

/-- The backgroundColor block is the identity on an unchanged value. -/
theorem setBackgroundColor_self (s : RendererState) :
    setBackgroundColor (some s.p.backgroundColor) s = s := by
  simp [setBackgroundColor]

/-- Configuration projection of the pickingAlphaThreshold block: the field is set to the
present value, everything else in the configuration is untouched. -/
theorem setPickingAlphaThreshold_p (v) (s : RendererState) :
    (setPickingAlphaThreshold v s).p = { s.p with pickingAlphaThreshold := v.getD s.p.pickingAlphaThreshold } := by
  cases v with
  | none => rfl
  | some c =>
    dsimp only [setPickingAlphaThreshold]
    split_ifs with hne
    · rfl
    · have hc := not_not.mp hne
      subst hc
      rfl

/-- The pickingAlphaThreshold block is the identity on an unchanged value. -/
theorem setPickingAlphaThreshold_self (s : RendererState) :
    setPickingAlphaThreshold (some s.p.pickingAlphaThreshold) s = s := by
  simp [setPickingAlphaThreshold]

/-- Configuration projection of the interiorDarkening block: the field is set to the
present value, everything else in the configuration is untouched. -/
theorem setInteriorDarkening_p (v) (s : RendererState) :
    (setInteriorDarkening v s).p = { s.p with interiorDarkening := v.getD s.p.interiorDarkening } := by
  cases v with
  | none => rfl
  | some c =>
    dsimp only [setInteriorDarkening]
    split_ifs with hne
    · rfl
    · have hc := not_not.mp hne
      subst hc
      rfl

/-- The interiorDarkening block is the identity on an unchanged value. -/
theorem setInteriorDarkening_self (s : RendererState) :
    setInteriorDarkening (some s.p.interiorDarkening) s = s := by
  simp [setInteriorDarkening]

/-- Configuration projection of the interiorColorFlag block: the field is set to the
present value, everything else in the configuration is untouched. -/
theorem setInteriorColorFlag_p (v) (s : RendererState) :
    (setInteriorColorFlag v s).p = { s.p with interiorColorFlag := v.getD s.p.interiorColorFlag } := by
  cases v with
  | none => rfl
  | some c =>
    dsimp only [setInteriorColorFlag]
    split_ifs with hne
    · rfl
    · have hc := not_not.mp hne
      subst hc
      rfl

/-- The interiorColorFlag block is the identity on an unchanged value. -/
theorem setInteriorColorFlag_self (s : RendererState) :
    setInteriorColorFlag (some s.p.interiorColorFlag) s = s := by
  simp [setInteriorColorFlag]

/-- Configuration projection of the interiorColor block: the field is set to the
present value, everything else in the configuration is untouched. -/
theorem setInteriorColor_p (v) (s : RendererState) :
    (setInteriorColor v s).p = { s.p with interiorColor := v.getD s.p.interiorColor } := by
  cases v with
  | none => rfl
  | some c =>
    dsimp only [setInteriorColor]
    split_ifs with hne
    · rfl
    · have hc := not_not.mp hne
      subst hc
      rfl

/-- The interiorColor block is the identity on an unchanged value. -/
theorem setInteriorColor_self (s : RendererState) :
    setInteriorColor (some s.p.interiorColor) s = s := by
  simp [setInteriorColor]

/-- Configuration projection of the highlightColor block: the field is set to the
present value, everything else in the configuration is untouched. -/
theorem setHighlightColor_p (v) (s : RendererState) :
    (setHighlightColor v s).p = { s.p with highlightColor := v.getD s.p.highlightColor } := by
  cases v with
  | none => rfl
  | some c =>
    dsimp only [setHighlightColor]
    split_ifs with hne
    · rfl
    · have hc := not_not.mp hne
      subst hc
      rfl

/-- The highlightColor block is the identity on an unchanged value. -/
theorem setHighlightColor_self (s : RendererState) :
    setHighlightColor (some s.p.highlightColor) s = s := by
  simp [setHighlightColor]

/-- Configuration projection of the selectColor block: the field is set to the
present value, everything else in the configuration is untouched. -/
theorem setSelectColor_p (v) (s : RendererState) :
    (setSelectColor v s).p = { s.p with selectColor := v.getD s.p.selectColor } := by
  cases v with
  | none => rfl
  | some c =>
    dsimp only [setSelectColor]
    split_ifs with hne
    · rfl
    · have hc := not_not.mp hne
      subst hc
      rfl

/-- The selectColor block is the identity on an unchanged value. -/
theorem setSelectColor_self (s : RendererState) :
    setSelectColor (some s.p.selectColor) s = s := by
  simp [setSelectColor]

/-- Configuration projection of the style block. -/
theorem setStyleProp_p (v) (s : RendererState) :
    (setStyleProp v s).p = { s.p with style := v.getD s.p.style } := by
  cases v <;> rfl

/-- Configuration projection of the clip block. -/
theorem setClipProp_p (v) (s : RendererState) :
    (setClipProp v s).p = { s.p with clip := v.getD s.p.clip } := by
  cases v with
  | none => rfl
  | some c =>
    dsimp only [setClipProp]
    split_ifs with hne
    · rfl
    · have hc := not_not.mp hne
      subst hc
      rfl

/-- updateIfChanged on the currently held value leaves the cell alone. -/
theorem cellUpdateIfChanged_self {α : Type} [DecidableEq α] (c : Cell α) (v : α)
    (h : c.value = v) : cellUpdateIfChanged c v = c := by
  simp [cellUpdateIfChanged, h]

/-- The style block is the identity on an unchanged style, given the
well-formedness invariant. -/
theorem setStyleProp_self (s : RendererState) (hWf : WfRenderer s) :
    setStyleProp (some s.p.style) s = s := by
  obtain ⟨h0, h1, h2, h3, h4, h5⟩ := hWf
  dsimp only [setStyleProp]
  rw [cellUpdateIfChanged_self _ _ (by rw [h1, h0]),
      cellUpdateIfChanged_self _ _ (by rw [h2, h0]),
      cellUpdateIfChanged_self _ _ (by rw [h3, h0]),
      cellUpdateIfChanged_self _ _ (by rw [h4, h0]),
      cellUpdateIfChanged_self _ _ (by rw [h5, h0])]
  rw [show getStyle s.p.style = s.style from h0.symm]

/-- The clip block is the identity on a deep-equal clip configuration. -/
theorem setClipProp_self (s : RendererState) :
    setClipProp (some s.p.clip) s = s := by
  simp [setClipProp]

/-- Round-trip half of C7: pushing a full configuration through setProps and
reading props back yields that configuration. -/
theorem setProps_roundtrip (s : RendererState) (q : RendererProps) :
    (setProps (toFullUpdate q) s).p = q := by
  simp only [setProps, toFullUpdate, setClipProp_p, setStyleProp_p, setSelectColor_p,
    setHighlightColor_p, setInteriorColor_p, setInteriorColorFlag_p,
    setInteriorDarkening_p, setPickingAlphaThreshold_p, setBackgroundColor_p,
    Option.getD_some]

/-- No-op half of C7: an update whose present fields all equal the stored
configuration leaves the whole renderer state, including every dependent
global-uniform cell, untouched. -/
theorem setProps_noop (s : RendererState) (hWf : WfRenderer s) (u : PropsUpdate)
    (hnc : NoChangeUpdate u s.p) : setProps u s = s := by
  obtain ⟨n1, n2, n3, n4, n5, n6, n7, n8, n9⟩ := hnc
  have e1 : setBackgroundColor u.backgroundColor s = s := by
    rcases n1 with hx | hx <;> rw [hx]
    · rfl
    · exact setBackgroundColor_self s
  have e2 : setPickingAlphaThreshold u.pickingAlphaThreshold s = s := by
    rcases n2 with hx | hx <;> rw [hx]
    · rfl
    · exact setPickingAlphaThreshold_self s
  have e3 : setInteriorDarkening u.interiorDarkening s = s := by
    rcases n3 with hx | hx <;> rw [hx]
    · rfl
    · exact setInteriorDarkening_self s
  have e4 : setInteriorColorFlag u.interiorColorFlag s = s := by
    rcases n4 with hx | hx <;> rw [hx]
    · rfl
    · exact setInteriorColorFlag_self s
  have e5 : setInteriorColor u.interiorColor s = s := by
    rcases n5 with hx | hx <;> rw [hx]
    · rfl
    · exact setInteriorColor_self s
  have e6 : setHighlightColor u.highlightColor s = s := by
    rcases n6 with hx | hx <;> rw [hx]
    · rfl
    · exact setHighlightColor_self s
  have e7 : setSelectColor u.selectColor s = s := by
    rcases n7 with hx | hx <;> rw [hx]
    · rfl
    · exact setSelectColor_self s
  have e8 : setStyleProp u.style s = s := by
    rcases n8 with hx | hx <;> rw [hx]
    · rfl
    · exact setStyleProp_self s hWf
  have e9 : setClipProp u.clip s = s := by
    rcases n9 with hx | hx <;> rw [hx]
    · rfl
    · exact setClipProp_self s
  unfold setProps
  rw [e1, e2, e3, e4, e5, e6, e7, e8, e9]

/-- C7: for a well-formed renderer state, setProps round-trips every
configuration field (writing a full configuration and reading props back
yields it), and an update whose present values equal the stored ones
triggers no change at all — in particular no dependent global-uniform
cell update. -/
theorem c7_theorem (s : RendererState) (hWf : WfRenderer s) :
    (∀ q : RendererProps, (setProps (toFullUpdate q) s).p = q) ∧
    (∀ u : PropsUpdate, NoChangeUpdate u s.p → setProps u s = s) :=
  ⟨fun q => setProps_roundtrip s q, fun u hu => setProps_noop s hWf u hu⟩

/-- C7 witness: the sample state is well-formed, a full write of a second
configuration reads back exactly, and re-submitting the current
configuration leaves the state untouched. -/
theorem c7_witness :
    WfRenderer rendererStateEx ∧
    (setProps (toFullUpdate propsEx2) rendererStateEx).p = propsEx2 ∧
    setProps (toFullUpdate rendererStateEx.p) rendererStateEx = rendererStateEx := by
  have hWf : WfRenderer rendererStateEx := ⟨rfl, rfl, rfl, rfl, rfl, rfl⟩
  have hnc : NoChangeUpdate (toFullUpdate rendererStateEx.p) rendererStateEx.p :=
    ⟨Or.inr rfl, Or.inr rfl, Or.inr rfl, Or.inr rfl, Or.inr rfl,
     Or.inr rfl, Or.inr rfl, Or.inr rfl, Or.inr rfl⟩
  exact ⟨hWf, (c7_theorem rendererStateEx hWf).1 propsEx2,
    (c7_theorem rendererStateEx hWf).2 (toFullUpdate rendererStateEx.p) hnc⟩

end MolstarDraw
